import Mathlib

/-! MainPanel: frame loop and ship-event drain

A shallow embedding of `MainPanel::Step`, `MainPanel::StepEvents`,
`MainPanel::ShowHailPanel` and `MainPanel::ShowScanDialog`
(source/MainPanel.cpp).

The controller's own fields (`eventQueue`, `handledFront`, `show`, `lostness`,
`lostCount`, `canClick`, `canDrag`) are explicit state. Everything the
controller talks to (UI stack, PlayerInfo, Engine, missions, preferences) is a
world of an arbitrary type `W`, read and changed only through the functions of
`Collaborators W`; theorems quantify over every `W` and every such family of
functions, so they hold whatever the collaborators do. Each call the controller
makes to a collaborator is appended to `log`, in program order.
-/

namespace MainPanel

/-! ## Data model -/

abbrev ShipId := Nat
abbrev GovId := Nat
abbrev MissionId := Nat
abbrev SystemId := Nat
abbrev StellarId := Nat

/-- Modelled from the spec: ShipEvent.h is not among the sources; the event kind
is a bitset, and `ASSIST` is one of its bits. -/
def ASSIST : Nat := 1
/-- Modelled from the spec: ShipEvent.h is not among the sources; the event kind
is a bitset, and `SCAN_CARGO` is one of its bits. -/
def SCAN_CARGO : Nat := 2
/-- Modelled from the spec: ShipEvent.h is not among the sources; the event kind
is a bitset, and `SCAN_OUTFITS` is one of its bits. -/
def SCAN_OUTFITS : Nat := 4
/-- Modelled from the spec: ShipEvent.h is not among the sources; the event kind
is a bitset, and `BOARD` is one of its bits. -/
def BOARD : Nat := 32

/-- A ShipEvent as the drain reads it: `Type()`, `Actor()`, `Target()`,
`ActorGovernment()` and `TargetGovernment()` (which may be null). -/
structure ShipEvent where
  type : Nat
  actor : ShipId
  target : ShipId
  actorGovernment : GovId
  targetGovernment : Option GovId
deriving DecidableEq, Repr

/-- The two `Mission::Location` values passed to `HandleBlockedMissions`. -/
inductive MissionLocation where
  | BOARDING
  | ASSISTING
deriving DecidableEq, Repr

/-- What `Planet` tells the controller. -/
structure Planet where
  noun : String
  isWormhole : Bool
  isInhabited : Bool
deriving DecidableEq, Repr

/-- A stellar object and the planet it resolves to (`GetPlanet()` may be null). -/
structure StellarObject where
  id : StellarId
  planet : Option Planet
deriving DecidableEq, Repr

/-- What the controller reads of the flagship's target ship. -/
structure TargetShip where
  id : ShipId
  noun : String
  zoom : Rat
  isDestroyed : Bool
  isDisabled : Bool
  system : Option SystemId
  cloaking : Rat
  isEnteringHyperspace : Bool
  governmentIsEnemy : Bool
deriving DecidableEq, Repr

/-- What the controller reads of the flagship (`player.Flagship()`). -/
structure Flagship where
  id : ShipId
  isDestroyed : Bool
  isDisabled : Bool
  isTargetable : Bool
  isHyperspacing : Bool
  isEnteringHyperspace : Bool
  zoom : Rat
  cloaking : Rat
  jumpsRemaining : Int
  asteroidScanPower : Rat
  positionLength : Rat
  targetShip : Option TargetShip
  targetStellar : Option StellarObject
deriving DecidableEq, Repr

/-- The UI surfaces the controller itself pushes. -/
inductive Surface where
  | MapDetailPanel
  | PlayerInfoPanel
  | PlanetPanel
  | HailPanelShip (target : ShipId)
  | HailPanelStellar (object : StellarId)
  | BoardingPanel (ship : ShipId)
  | Dialog (text : String)
deriving DecidableEq, Repr

/-- The collaborator calls the controller makes, as recorded in the log. -/
inductive Call where
  | engineWait
  | engineStep (isActive : Bool)
  | engineEvents (events : List ShipEvent)
  | engineGo
  | push (surface : Surface)
  | messagesAdd (text : String)
  | land
  | save
  | doHelp (name : String)
  | handleEvent (event : ShipEvent)
  | boardingMission (ship : ShipId)
  | missionOffer (mission : MissionId) (ship : ShipId)
  | handleBlockedMissions (location : MissionLocation)
  | fine (event : ShipEvent)
deriving DecidableEq, Repr

/-- The part of `Command` that `Step` tests: `show.Has(Command::MAP)`,
`show.Has(Command::INFO)`, `show.Has(Command::HAIL)`. -/
structure Command where
  hasMAP : Bool
  hasINFO : Bool
  hasHAIL : Bool
deriving DecidableEq, Repr

/-- `Command::NONE`. -/
def Command.NONE : Command := ⟨false, false, false⟩

/-- The collaborators, as functions of an arbitrary world `W`. A query returns
a value; a call that may change anything returns the next world. -/
structure Collaborators (W : Type) where
  /-- `GetUI()->IsTop(this)`: top among the already-drawn panels. -/
  isTopDrawn : W → Bool
  /-- `GetUI()->Top().get() == this`. -/
  isTop : W → Bool
  /-- `GetUI()->Push(...)`. -/
  push : W → Surface → W
  /-- `Messages::Add(text, Messages::Importance::High)`. -/
  messagesAdd : W → String → W
  /-- `player.Flagship()`, null when there is none. -/
  flagship : W → Option Flagship
  /-- `SDL_GetModState() & KMOD_SHIFT`. -/
  shiftHeld : W → Bool
  /-- `player.GetSystem()`. -/
  playerSystem : W → Option SystemId
  /-- `GameData::Phrases().Get("wormhole hail")->Get()`. -/
  wormholeHail : W → String
  /-- `player.GetPlanet()`, null when not landed. -/
  playerPlanet : W → Option Planet
  /-- `player.Land(GetUI())`. -/
  land : W → W
  /-- `player.Save()`. -/
  save : W → W
  /-- `Preferences::Has(name)`. -/
  preferencesHas : W → String → Bool
  /-- `DoHelp(name)`: true when a help surface was shown. -/
  doHelp : W → String → Bool × W
  /-- `player.GetSystem()->HasFuelFor(*flagship)`. -/
  hasFuelFor : W → Bool
  /-- `player.Ships().size()`. -/
  shipCount : W → Nat
  /-- `player.DisplayCarrierHelp()`. -/
  displayCarrierHelp : W → Bool
  /-- `player.GetDate()`, as a day number. -/
  date : W → Int
  /-- `player.StartData().GetDate()`, as a day number. -/
  startDate : W → Int
  /-- `engine.Wait()`. -/
  engineWait : W → W
  /-- `engine.Step(isActive)`. -/
  engineStep : W → Bool → W
  /-- `engine.Events()`, spliced out of the engine: the events and the world
  in which the engine's list is empty. -/
  engineEvents : W → List ShipEvent × W
  /-- `engine.Go()`. -/
  engineGo : W → W
  /-- `player.HandleEvent(event, GetUI())`. -/
  handleEvent : W → ShipEvent → W
  /-- `government->IsPlayer()`. -/
  isPlayer : GovId → Bool
  /-- `ship->IsDestroyed()` for an event's target. -/
  isDestroyed : W → ShipId → Bool
  /-- `ship->GetGovernment()->IsEnemy()` for an event's target. -/
  isEnemy : W → ShipId → Bool
  /-- `player.BoardingMission(ship)`, null when there is none. -/
  boardingMission : W → ShipId → Option MissionId × W
  /-- `mission->HasSpace(*flagship)`. -/
  hasSpace : W → MissionId → Flagship → Bool
  /-- `mission->Do(Mission::OFFER, player, GetUI(), boardedShip)`. -/
  missionOffer : W → MissionId → ShipId → W
  /-- `player.HandleBlockedMissions(location, GetUI())`. -/
  handleBlockedMissions : W → MissionLocation → W
  /-- `actor->Fine(player, event.Type(), &*event.Target())`. -/
  fine : W → ShipEvent → String × W
  /-- The text `ShowScanDialog` builds in `out` for the event. -/
  scanText : W → ShipEvent → String

/-- The controller's fields, the world of its collaborators, and the log of
the calls made so far. -/
structure State (W : Type) where
  world : W
  eventQueue : List ShipEvent
  handledFront : Bool
  showCommand : Command
  lostness : Int
  lostCount : Nat
  canClick : Bool
  canDrag : Bool
  log : List Call

variable {W : Type}

/-- Record a collaborator call and move to the world it leaves. -/
def State.call (s : State W) (k : Call) (w : W) : State W :=
  { s with world := w, log := s.log ++ [k] }

/-- `GetUI()->Push(surface)`. -/
def State.push (c : Collaborators W) (s : State W) (surface : Surface) : State W :=
  s.call (Call.push surface) (c.push s.world surface)

/-! ## StepEvents -/

/-- `ShowScanDialog(event)`: builds the text and ends in
`GetUI()->Push(new Dialog(out.str()))` on every path. -/
def ShowScanDialog (c : Collaborators W) (s : State W) (event : ShipEvent) : State W :=
  s.push c (Surface.Dialog (c.scanText s.world event))

/-- Lines 873-882: the mission lookup and its offer or blocked handling, run
when the boarding guard holds. -/
def boardingMissionStage (c : Collaborators W) (s : State W) (event : ShipEvent)
    (flagship : Flagship) : State W :=
  let boardedShip := event.target
  let r := c.boardingMission s.world boardedShip
  let s1 := s.call (Call.boardingMission boardedShip) r.2
  match r.1 with
  | some mission =>
    if c.hasSpace s1.world mission flagship then
      s1.call (Call.missionOffer mission boardedShip) (c.missionOffer s1.world mission boardedShip)
    else
      let location :=
        if event.type &&& BOARD ≠ 0 then MissionLocation.BOARDING else MissionLocation.ASSISTING
      s1.call (Call.handleBlockedMissions location) (c.handleBlockedMissions s1.world location)
  | none => s1

/-- The guard of line 873-874. -/
def boardingGuard (c : Collaborators W) (w : W) (event : ShipEvent) : Option Flagship :=
  match c.flagship w with
  | some flagship =>
    if event.type &&& (BOARD ||| ASSIST) ≠ 0 ∧ c.isPlayer event.actorGovernment = true
        ∧ c.isDestroyed w event.target = false ∧ event.actor = flagship.id then
      some flagship
    else none
  | none => none

/-- Lines 872-901: boarding events. -/
def handleBoarding (c : Collaborators W) (s : State W) (event : ShipEvent) (isActive : Bool) :
    State W × Bool :=
  match boardingGuard c s.world event with
  | some flagship =>
    let s1 := boardingMissionStage c s event flagship
    let isActive1 := c.isTop s1.world
    if isActive1 = true ∧ event.type = BOARD ∧ c.isDestroyed s1.world event.target = false
        ∧ c.isEnemy s1.world event.target = true then
      (s1.push c (Surface.BoardingPanel event.target), false)
    else (s1, isActive1)
  | none => (s, isActive)

/-- Lines 904-920: scan events of or by the player. -/
def handleScan (c : Collaborators W) (s : State W) (event : ShipEvent) (isActive : Bool) :
    State W × Bool :=
  if event.type &&& (SCAN_CARGO ||| SCAN_OUTFITS) ≠ 0 then
    if c.isPlayer event.actorGovernment then
      (ShowScanDialog c s event, false)
    else
      match event.targetGovernment with
      | some g =>
        if c.isPlayer g then
          let r := c.fine s.world event
          let s1 := s.call (Call.fine event) r.2
          if r.1 ≠ "" then (s1.push c (Surface.Dialog r.1), false) else (s1, isActive)
        else (s, isActive)
      | none => (s, isActive)
  else (s, isActive)

/-- Lines 849-851: the primary notification, skipped when `handledFront`. -/
def notifyFront (c : Collaborators W) (s : State W) (event : ShipEvent) : State W :=
  let s1 := if s.handledFront then s
    else s.call (Call.handleEvent event) (c.handleEvent s.world event)
  { s1 with handledFront := true }

/-- Lines 872-920: the secondary checks of the head event. -/
def secondaryChecks (c : Collaborators W) (s : State W) (event : ShipEvent) : State W × Bool :=
  let r := handleBoarding c s event true
  handleScan c r.1 event r.2

/-- Lines 923-924: `eventQueue.pop_front(); handledFront = false;`. -/
def popFront (s : State W) : State W :=
  { s with eventQueue := s.eventQueue.tail, handledFront := false }

/-- The `while(isActive && !eventQueue.empty())` loop of `StepEvents`, by
recursion on the events still queued (`queue` is `s.eventQueue`). -/
def drainLoop (c : Collaborators W) : List ShipEvent → State W → Bool → State W × Bool
  | [], s, isActive => (s, isActive)
  | event :: rest, s, isActive =>
    if isActive = false then (s, isActive)
    else
      let s1 := notifyFront c s event
      if c.isTop s1.world = false then (s1, false)
      else
        let r := secondaryChecks c s1 event
        drainLoop c rest (popFront r.1) r.2

/-- `MainPanel::StepEvents(bool &isActive)`: the state and `isActive` on return. -/
def StepEvents (c : Collaborators W) (s : State W) (isActive : Bool) : State W × Bool :=
  drainLoop c s.eventQueue s isActive

/-! ## ShowHailPanel -/

/-- Everything `ShowHailPanel` reads before it acts. -/
structure HailView where
  flagship : Option Flagship
  shiftHeld : Bool
  playerSystem : Option SystemId
  wormholeHail : String
deriving DecidableEq, Repr

/-- The reads of `ShowHailPanel` in world `w`. -/
def hailView (c : Collaborators W) (w : W) : HailView :=
  { flagship := c.flagship w, shiftHeld := c.shiftHeld w, playerSystem := c.playerSystem w,
    wormholeHail := c.wormholeHail w }

/-- Lines 784-786: the target ship, reset when shift is held and a stellar
target is set. -/
def hailTarget (v : HailView) (flagship : Flagship) : Option TargetShip :=
  if v.shiftHeld = true ∧ flagship.targetStellar.isSome = true then none else flagship.targetShip

/-- `MainPanel::ShowHailPanel()`: the calls it makes (`Messages::Add`,
`GetUI()->Push`) and its return value. -/
def ShowHailPanel (v : HailView) : List Call × Bool :=
  match v.flagship with
  | none => ([], false)
  | some flagship =>
    if flagship.isDestroyed then ([], false)
    else if flagship.zoom < 1 then ([], false)
    else if flagship.isEnteringHyperspace then
      ([Call.messagesAdd "Unable to send hail: your flagship is entering hyperspace."], false)
    else if flagship.cloaking = 1 then
      ([Call.messagesAdd "Unable to send hail: your flagship is cloaked."], false)
    else
      match hailTarget v flagship with
      | some target =>
        if target.zoom < 1 ∨ target.isDestroyed = true ∨ target.system ≠ v.playerSystem
            ∨ target.cloaking = 1 then
          ([Call.messagesAdd ("Unable to hail target " ++ target.noun ++ ".")], false)
        else if target.isEnteringHyperspace then
          ([Call.messagesAdd
              ("Unable to send hail: " ++ target.noun ++ " is entering hyperspace.")], false)
        else ([Call.push (Surface.HailPanelShip target.id)], true)
      | none =>
        match flagship.targetStellar with
        | some stellar =>
          match stellar.planet with
          | none => ([Call.messagesAdd "Unable to send hail."], false)
          | some planet =>
            if planet.isWormhole then ([Call.messagesAdd v.wormholeHail], false)
            else if planet.isInhabited then
              ([Call.push (Surface.HailPanelStellar stellar.id)], true)
            else
              ([Call.messagesAdd ("Unable to send hail: " ++ planet.noun ++ " is not inhabited.")],
                false)
        | none => ([Call.messagesAdd "Unable to send hail: no target selected."], false)

/-- Carry out the calls `ShowHailPanel` makes. -/
def State.perform (c : Collaborators W) (s : State W) : List Call → State W
  | [] => s
  | Call.push surface :: ks => (s.push c surface).perform c ks
  | Call.messagesAdd text :: ks =>
    (s.call (Call.messagesAdd text) (c.messagesAdd s.world text)).perform c ks
  | _ :: ks => s.perform c ks

/-! ## Step -/

/-- Lines 74-93: wait for the engine, read whether the controller is on top,
show any requested panel, clear the request. -/
def stepShow (c : Collaborators W) (s : State W) : State W × Bool :=
  let s0 := s.call Call.engineWait (c.engineWait s.world)
  let isActive := c.isTopDrawn s0.world
  let r : State W × Bool :=
    if s0.showCommand.hasMAP then (s0.push c Surface.MapDetailPanel, false)
    else if s0.showCommand.hasINFO then (s0.push c Surface.PlayerInfoPanel, false)
    else if s0.showCommand.hasHAIL then
      let h := ShowHailPanel (hailView c s0.world)
      (s0.perform c h.1, !h.2)
    else (s0, isActive)
  ({ r.1 with showCommand := Command.NONE }, r.2)

/-- Lines 97-104: the landing transition. -/
def stepLanding (c : Collaborators W) (s : State W) (isActive : Bool) : State W × Bool :=
  match c.playerPlanet s.world with
  | some planet =>
    if isActive = true ∧ planet.isWormhole = false then
      let s1 := s.push c Surface.PlanetPanel
      let s2 := s1.call Call.land (c.land s1.world)
      let s3 := s2.call Call.save (c.save s2.world)
      (s3, false)
    else (s, isActive)
  | none => (s, isActive)

/-- One line of the form `if(isActive && cond) isActive = !DoHelp(name);`. -/
def helpIf (c : Collaborators W) (cond : W → Bool) (name : String) (p : State W × Bool) :
    State W × Bool :=
  if p.2 = true ∧ cond p.1.world = true then
    let r := c.doHelp p.1.world name
    (p.1.call (Call.doHelp name) r.2, !r.1)
  else p

/-- Lines 129-132: `isActive = !DoHelp(a) && !DoHelp(b)`, the second call made
only when the first returned false. -/
def helpIf2 (c : Collaborators W) (cond : W → Bool) (a b : String) (p : State W × Bool) :
    State W × Bool :=
  if p.2 = true ∧ cond p.1.world = true then
    let r := c.doHelp p.1.world a
    let s1 := p.1.call (Call.doHelp a) r.2
    if r.1 then (s1, false)
    else
      let r2 := c.doHelp s1.world b
      (s1.call (Call.doHelp b) r2.2, !r2.1)
  else p

/-- Lines 144-145: `"lost 1"` with its last character advanced by `lostCount`. -/
def lostMessage (lostCount : Nat) : String :=
  "lost " ++ String.singleton (Char.ofNat ('1'.toNat + lostCount))

/-- A C++ `int`, 32 bits in two's complement: `x` brought into the range
`-2147483648 .. 2147483647` by wrap-around. -/
def wrapInt (x : Int) : Int :=
  (x + 2147483648) % 4294967296 - 2147483648

/-- Lines 137-150: the lost-in-space counter. `lostness` is a C++ `int`:
`++lostness` wraps around past 2147483647, and `lostness / 3600` truncates
toward zero. `lostCount` is only changed by line 146, which runs when
`lostCount < count <= 7`; it is a natural number here. -/
def helpLost (c : Collaborators W) (flagship : Flagship) (p : State W × Bool) : State W × Bool :=
  if p.2 = true ∧ flagship.isHyperspacing = false ∧ flagship.positionLength > 10000
      ∧ c.date p.1.world ≤ c.startDate p.1.world + 4 then
    let s1 : State W := { p.1 with lostness := wrapInt (p.1.lostness + 1) }
    let count : Int := 1 + Int.tdiv s1.lostness 3600
    if count > (s1.lostCount : Int) ∧ count ≤ 7 then
      let message := lostMessage s1.lostCount
      let s2 : State W := { s1 with lostCount := s1.lostCount + 1 }
      let r := c.doHelp s2.world message
      (s2.call (Call.doHelp message) r.2, !r.1)
    else (s1, p.2)
  else p

/-- Lines 107-151: the help/tutorial messages. The flagship is the one read at
line 107. -/
def stepHelp (c : Collaborators W) (s : State W) (isActive : Bool) : State W × Bool :=
  match c.flagship s.world with
  | none => (s, isActive)
  | some flagship =>
    let targetFriendlyDisabled : Bool :=
      match flagship.targetShip with
      | some target => target.isDisabled && !target.governmentIsEnemy
      | none => false
    let p := (s, isActive)
    let p := helpIf c (fun w => c.preferencesHas w "Control ship with mouse")
      "control ship with mouse" p
    let p := helpIf c (fun _ => flagship.isTargetable) "navigation" p
    let p := helpIf c (fun _ => flagship.isDestroyed) "dead" p
    let p := helpIf c (fun _ => flagship.isDisabled && !flagship.isDestroyed) "disabled" p
    let canRefuel := c.hasFuelFor p.1.world
    let p := helpIf c (fun _ => !flagship.isHyperspacing && decide (flagship.jumpsRemaining = 0)
      && !canRefuel) "stranded" p
    let p := helpIf c (fun _ => targetFriendlyDisabled) "friendly disabled" p
    let p := helpIf c (fun w => decide (c.shipCount w > 1)) "multiple ship controls" p
    let p := helpIf c (fun w => flagship.isTargetable && decide (c.shipCount w > 1))
      "fleet harvest tutorial" p
    let p := helpIf2 c (fun w => flagship.isTargetable && decide (flagship.asteroidScanPower ≠ 0)
      && decide (c.shipCount w > 1)) "fleet asteroid mining" "fleet asteroid mining shortcuts" p
    let p := helpIf c (fun w => c.displayCarrierHelp w) "try out fighters transfer cargo" p
    let p := helpIf c (fun w => c.preferencesHas w "Fighters transfer cargo")
      "fighters transfer cargo" p
    helpLost c flagship p

/-- Lines 153-157: `engine.Step(isActive)` and the splice of `engine.Events()`
onto the end of `eventQueue`. -/
def stepEngine (c : Collaborators W) (s : State W) (isActive : Bool) : State W :=
  let s1 := s.call (Call.engineStep isActive) (c.engineStep s.world isActive)
  let r := c.engineEvents s1.world
  let s2 := s1.call (Call.engineEvents r.1) r.2
  { s2 with eventQueue := s2.eventQueue ++ r.1 }

/-- Lines 162-166: advance or suspend. -/
def stepFinish (c : Collaborators W) (s : State W) (isActive : Bool) : State W :=
  let s1 : State W :=
    if isActive then s.call Call.engineGo (c.engineGo s.world)
    else { s with canDrag := false }
  { s1 with canClick := isActive }

/-- The state and `isActive` after lines 74-151 of `Step`. -/
def stepBeforeEngine (c : Collaborators W) (s : State W) : State W × Bool :=
  let p1 := stepShow c s
  let p2 := stepLanding c p1.1 p1.2
  stepHelp c p2.1 p2.2

/-- The state and `isActive` after the drain (line 160) of `Step`. -/
def stepThroughDrain (c : Collaborators W) (s : State W) : State W × Bool :=
  let p3 := stepBeforeEngine c s
  StepEvents c (stepEngine c p3.1 p3.2) p3.2

/-- `MainPanel::Step()`. -/
def Step (c : Collaborators W) (s : State W) : State W :=
  let p := stepThroughDrain c s
  stepFinish c p.1 p.2

/-! ## Observations on runs -/

/-- The events passed to `player.HandleEvent`, in call order. -/
def handledEvents : List Call → List ShipEvent
  | [] => []
  | Call.handleEvent event :: ks => event :: handledEvents ks
  | _ :: ks => handledEvents ks

/-- One later call of `StepEvents`: the world it finds (panels may have closed,
the simulation may have advanced), the events spliced onto the queue before it,
and the value of `isActive` it is entered with. -/
structure Frame (W : Type) where
  world : W
  produced : List ShipEvent
  isActive : Bool

/-- A sequence of `StepEvents` calls, each preceded by an arbitrary change of
the world and a splice of new events at the tail. -/
def runDrains (c : Collaborators W) (s : State W) : List (Frame W) → State W
  | [] => s
  | f :: fs =>
    runDrains c
      (StepEvents c { s with world := f.world, eventQueue := s.eventQueue ++ f.produced }
        f.isActive).1 fs

/-- All events spliced in by a sequence of frames, in order. -/
def producedBy : List (Frame W) → List ShipEvent
  | [] => []
  | f :: fs => f.produced ++ producedBy fs

/-- The bookkeeping of the drain against `all`, the events produced so far:
the queue is what is left of `all` after the retired events, and the events
notified are the retired ones, followed by the head when `handledFront`. -/
def DrainInv (all : List ShipEvent) (s : State W) : Prop :=
  ∃ retired, all = retired ++ s.eventQueue
    ∧ handledEvents s.log = retired ++ (if s.handledFront then s.eventQueue.take 1 else [])
    ∧ (s.handledFront = true → s.eventQueue ≠ [])

/-- The events returned by `engine.Events()`, in call order. -/
def producedEvents : List Call → List ShipEvent
  | [] => []
  | Call.engineEvents events :: ks => events ++ producedEvents ks
  | _ :: ks => producedEvents ks

/-- The number of `engine.Go()` calls. -/
def goCount : List Call → Nat
  | [] => 0
  | Call.engineGo :: ks => goCount ks + 1
  | _ :: ks => goCount ks

/-- What happens between two frames: the world changes (input is handled,
panels open and close), `KeyDown` may set `show`, `Click` may set `canDrag`. -/
structure Input (W : Type) where
  world : W
  showCommand : Command
  canDrag : Bool

/-- A sequence of frames: `Step` after each between-frames change. -/
def runSteps (c : Collaborators W) (s : State W) : List (Input W) → State W
  | [] => s
  | i :: is =>
    runSteps c
      (Step c { s with world := i.world, showCommand := i.showCommand, canDrag := i.canDrag }) is

/-- Between `s` and `t` the queue, its latch, the input flags and the
engine-facing and notification calls are untouched: only the world moved and
other calls were logged. -/
def Quiet (s t : State W) : Prop :=
  t.eventQueue = s.eventQueue ∧ t.handledFront = s.handledFront ∧ t.canDrag = s.canDrag
    ∧ t.canClick = s.canClick ∧ handledEvents t.log = handledEvents s.log
    ∧ producedEvents t.log = producedEvents s.log ∧ goCount t.log = goCount s.log

/-! ## A concrete world -/

/-- A small world for concrete runs: whether the controller is top of the
stack, the flagship, and how the player's missions answer. -/
structure DemoWorld where
  /-- The controller is top of the stack, pending pushes included. -/
  top : Bool
  /-- The controller is top among the panels already drawn. -/
  topDrawn : Bool
  flagship : Option Flagship
  shiftHeld : Bool
  planet : Option Planet
  /-- Events whose `HandleEvent` makes an active mission show a dialog. -/
  notifyOpens : List ShipEvent
  destroyed : List ShipId
  enemies : List ShipId
  /-- The boarding mission available for any boarded ship. -/
  mission : Option MissionId
  missionHasSpace : Bool
  /-- The mission's offer shows a conversation. -/
  offerOpens : Bool
  /-- The blocked-mission handler shows a dialog. -/
  blockedOpens : Bool
  /-- Events the engine hands over at its next step. -/
  pending : List ShipEvent
deriving DecidableEq, Repr

/-- Government 0 is the player's. The UI stack is the two `top` flags; every
push takes the top away from the controller. -/
def demo : Collaborators DemoWorld where
  isTopDrawn w := w.topDrawn
  isTop w := w.top
  push w _ := { w with top := false }
  messagesAdd w _ := w
  flagship w := w.flagship
  shiftHeld w := w.shiftHeld
  playerSystem _ := some 0
  wormholeHail _ := "The wormhole does not answer."
  playerPlanet w := w.planet
  land w := w
  save w := w
  preferencesHas _ _ := false
  doHelp w _ := (false, w)
  hasFuelFor _ := true
  shipCount _ := 1
  displayCarrierHelp _ := false
  date _ := 0
  startDate _ := 0
  engineWait w := w
  engineStep w _ := w
  engineEvents w := (w.pending, { w with pending := [] })
  engineGo w := w
  handleEvent w e := if e ∈ w.notifyOpens then { w with top := false } else w
  isPlayer g := g == 0
  isDestroyed w ship := decide (ship ∈ w.destroyed)
  isEnemy w ship := decide (ship ∈ w.enemies)
  boardingMission w _ := (w.mission, w)
  hasSpace w _ _ := w.missionHasSpace
  missionOffer w _ _ := if w.offerOpens then { w with top := false } else w
  handleBlockedMissions w _ := if w.blockedOpens then { w with top := false } else w
  fine w _ := ("", w)
  scanText _ _ := "This ship is not carrying any cargo.\n"

/-- A flagship in open space with nothing targeted. -/
def demoFlagship : Flagship :=
  { id := 1, isDestroyed := false, isDisabled := false, isTargetable := false,
    isHyperspacing := false, isEnteringHyperspace := false, zoom := 1, cloaking := 0,
    jumpsRemaining := 3, asteroidScanPower := 0, positionLength := 0,
    targetShip := none, targetStellar := none }

/-- A world in which the controller is on top and nothing is going on. -/
def demoWorld : DemoWorld :=
  { top := true, topDrawn := true, flagship := some demoFlagship, shiftHeld := false,
    planet := none, notifyOpens := [], destroyed := [], enemies := [], mission := none,
    missionHasSpace := false, offerOpens := false, blockedOpens := false, pending := [] }

/-- A fresh controller in the given world with the given queue. -/
def demoState (w : DemoWorld) (queue : List ShipEvent) : State DemoWorld :=
  { world := w, eventQueue := queue, handledFront := false, showCommand := Command.NONE,
    lostness := 0, lostCount := 0, canClick := true, canDrag := false, log := [] }

/-- An event of the given kind by ship `actor` of government `gov` on ship
`target` of government 7. -/
def demoEvent (type : Nat) (actor : ShipId) (gov : GovId) (target : ShipId) : ShipEvent :=
  { type := type, actor := actor, target := target, actorGovernment := gov,
    targetGovernment := some 7 }

/-- Scenario A: three queued events by other ships; the notification of the
second makes a mission show a dialog. -/
def scenarioA : State DemoWorld :=
  demoState { demoWorld with notifyOpens := [demoEvent 16 5 3 6] }
    [demoEvent 8 5 3 6, demoEvent 16 5 3 6, demoEvent 128 5 3 6]

/-- The world of scenario A once the dialog has been dismissed. -/
def scenarioADismissed : DemoWorld :=
  { demoWorld with notifyOpens := [demoEvent 16 5 3 6] }

/-- Scenario A when the drain reaches the second event: the first has been
notified, checked and popped. -/
def scenarioASecond : State DemoWorld :=
  popFront (secondaryChecks demo (notifyFront demo scenarioA (demoEvent 8 5 3 6))
    (demoEvent 8 5 3 6)).1

/-- A BOARD event by the demo flagship (ship 1, the player's) on ship 6. -/
def boardEvent : ShipEvent := demoEvent BOARD 1 0 6

/-- As `silentOfferWorld`, but the offer shows a conversation. -/
def shownOfferWorld : DemoWorld :=
  { demoWorld with enemies := [6], mission := some 9, missionHasSpace := true,
                   offerOpens := true }

/-- Ship 6 is hostile and has a boarding mission without space. -/
def blockedWorld : DemoWorld :=
  { demoWorld with enemies := [6], mission := some 9, missionHasSpace := false,
                   blockedOpens := true }

/-- As `blockedWorld`, but ship 6 has been destroyed since it was boarded. -/
def blockedDestroyedWorld : DemoWorld :=
  { demoWorld with enemies := [6], mission := some 9, missionHasSpace := false,
                   blockedOpens := true, destroyed := [6] }

/-- A ship in the player's system that can be hailed. -/
def hailableShip : TargetShip :=
  { id := 6, noun := "ship", zoom := 1, isDestroyed := false, isDisabled := false,
    system := some 0, cloaking := 0, isEnteringHyperspace := false, governmentIsEnemy := false }

/-- An inhabited planet as a stellar target. -/
def inhabitedStellar : StellarObject :=
  { id := 4, planet := some { noun := "planet", isWormhole := false, isInhabited := true } }

/-- The reads of `ShowHailPanel` for the given flagship and shift state. -/
def demoView (flagship : Option Flagship) (shiftHeld : Bool) : HailView :=
  { flagship := flagship, shiftHeld := shiftHeld, playerSystem := some 0,
    wormholeHail := "The wormhole does not answer." }

/-- The controller with a HAIL request pending, in the given world. -/
def hailRequested (w : DemoWorld) : State DemoWorld :=
  { demoState w [] with showCommand := ⟨false, false, true⟩ }

/-- Another panel covers the controller; the flagship has nothing targeted. -/
def coveredWorld : DemoWorld :=
  { demoWorld with top := false, topDrawn := false }

/-- As `coveredWorld`, with the player on a planet. -/
def coveredLandedWorld : DemoWorld :=
  { demoWorld with top := false, topDrawn := false,
                   planet := some { noun := "planet", isWormhole := false, isInhabited := true } }

/-- The demo flagship with the hailable ship targeted. -/
def shipTargeted : Flagship :=
  { demoFlagship with targetShip := some hailableShip }

/-- The demo flagship with both the ship and the planet targeted. -/
def bothTargeted : Flagship :=
  { demoFlagship with targetShip := some hailableShip, targetStellar := some inhabitedStellar }

/-! ## The lost-in-space counter over frames -/

/-- The names passed to `DoHelp`, in call order. -/
def helpNames : List Call → List String
  | [] => []
  | Call.doHelp name :: ks => name :: helpNames ks
  | _ :: ks => helpNames ks

/-- The lost-in-space predicate of lines 137-138, `isActive` apart. -/
abbrev lostInSpace (c : Collaborators W) (w : W) (flagship : Flagship) : Prop :=
  flagship.isHyperspacing = false ∧ flagship.positionLength > 10000
    ∧ c.date w ≤ c.startDate w + 4

/-- One frame as lines 137-150 see it: the world and the flagship they read and
the `isActive` they are reached with. -/
structure LostFrame (W : Type) where
  world : W
  flagship : Flagship
  isActive : Bool

/-- Lines 137-150 run once per frame, in any world. -/
def runLost (c : Collaborators W) (s : State W) : List (LostFrame W) → State W
  | [] => s
  | f :: fs => runLost c (helpLost c f.flagship ({ s with world := f.world }, f.isActive)).1 fs

/-- Lines 137-150 have run `n` times: `lostness` is `n`, the stage counter
follows it, and the lost messages passed so far are the first `lostCount`
stages in order. -/
def LostInv (n : Nat) (s : State W) : Prop :=
  s.lostness = (n : Int) ∧ s.lostCount = (if n = 0 then 0 else min 7 (1 + n / 3600))
    ∧ helpNames s.log = (List.range s.lostCount).map lostMessage

/-- The demo flagship far from the system centre. -/
def farFlagship : Flagship :=
  { demoFlagship with positionLength := 20000 }

/-- A frame in which lines 137-150 run: the controller is active and the
flagship is far out, on the first day. -/
def lostFrame : LostFrame DemoWorld :=
  { world := { demoWorld with flagship := some farFlagship }, flagship := farFlagship,
    isActive := true }

/-- The seven lost-stage messages, `"lost 1"` to `"lost 7"`. -/
def lostStageNames : List String :=
  (List.range 7).map lostMessage

/-- The lost-stage messages passed to `DoHelp`, in call order. -/
def lostNames (log : List Call) : List String :=
  (helpNames log).filter (fun name => decide (name ∈ lostStageNames))

/-- Between `s` and `t` the lost-in-space counters are untouched and no
lost-stage message was passed to `DoHelp`. -/
def SameLost (s t : State W) : Prop :=
  t.lostness = s.lostness ∧ t.lostCount = s.lostCount ∧ lostNames t.log = lostNames s.log

/-- The stage counter is at most 7, and the lost-stage messages passed so far
are the first `lostCount` stages in order. -/
def LostSeq (s : State W) : Prop :=
  s.lostCount ≤ 7 ∧ lostNames s.log = (List.range s.lostCount).map lostMessage

/-- Lines 137-150 have run `n` times: `lostness` is `n` and the stage counter
follows it. -/
def LostStepInv (n : Nat) (s : State W) : Prop :=
  s.lostness = (n : Int) ∧ s.lostCount = (if n = 0 then 0 else min 7 (1 + n / 3600))

/-! ## The drain as a while loop -/

/-- The loop of `StepEvents` read literally: each round tests
`isActive && !eventQueue.empty()` on the current state; `fuel` bounds the
number of rounds, and `none` means the bound was reached. -/
def drainWhile (c : Collaborators W) : Nat → State W → Bool → Option (State W × Bool)
  | 0, _, _ => none
  | fuel + 1, s, isActive =>
    match s.eventQueue with
    | [] => some (s, isActive)
    | event :: _ =>
      if isActive = false then some (s, isActive)
      else
        let s1 := notifyFront c s event
        if c.isTop s1.world = false then some (s1, false)
        else
          let r := secondaryChecks c s1 event
          drainWhile c fuel (popFront r.1) r.2

/-- An ASSIST event by the demo flagship on ship 6 that is also a cargo scan. -/
def assistScanEvent : ShipEvent := demoEvent (ASSIST ||| SCAN_CARGO) 1 0 6

/-! ## ShowScanDialog: the text -/

section StdMap

variable {K V : Type}

end StdMap

variable (c : Collaborators W)

theorem handledEvents_append (ks ls : List Call) :
    handledEvents (ks ++ ls) = handledEvents ks ++ handledEvents ls := by
  induction ks with
  | nil => rfl
  | cons k ks ih => cases k <;> simp [handledEvents, ih]

theorem producedEvents_append (ks ls : List Call) :
    producedEvents (ks ++ ls) = producedEvents ks ++ producedEvents ls := by
  induction ks with
  | nil => rfl
  | cons k ks ih => cases k <;> simp [producedEvents, ih]

theorem goCount_append (ks ls : List Call) :
    goCount (ks ++ ls) = goCount ks + goCount ls := by
  induction ks with
  | nil => simp [goCount]
  | cons k ks ih => cases k <;> simp [goCount, ih]; omega

theorem Quiet.refl (s : State W) : Quiet s s := by
  simp [Quiet]

theorem Quiet.trans {s t u : State W} (h1 : Quiet s t) (h2 : Quiet t u) : Quiet s u := by
  obtain ⟨a1, a2, a3, a4, a5, a6, a7⟩ := h1
  obtain ⟨b1, b2, b3, b4, b5, b6, b7⟩ := h2
  exact ⟨b1.trans a1, b2.trans a2, b3.trans a3, b4.trans a4, b5.trans a5, b6.trans a6,
    b7.trans a7⟩

theorem boardingMissionStage_quiet (s : State W) (e : ShipEvent) (f : Flagship) :
    Quiet s (boardingMissionStage c s e f) := by
  simp only [boardingMissionStage, Quiet]
  cases (c.boardingMission s.world e.target).1 with
  | none => simp [State.call, handledEvents_append, handledEvents, producedEvents_append,
      producedEvents, goCount_append, goCount]
  | some m =>
    simp only []
    split_ifs <;> simp [State.call, handledEvents_append, handledEvents, producedEvents_append,
      producedEvents, goCount_append, goCount]

theorem handleBoarding_quiet (s : State W) (e : ShipEvent) (a : Bool) :
    Quiet s (handleBoarding c s e a).1 := by
  simp only [handleBoarding]
  cases boardingGuard c s.world e with
  | none => exact Quiet.refl s
  | some f =>
    have h := boardingMissionStage_quiet c s e f
    simp only []
    split_ifs
    · refine h.trans ?_
      simp [Quiet, State.push, State.call, handledEvents_append, handledEvents,
        producedEvents_append, producedEvents, goCount_append, goCount]
    · exact h

theorem handleScan_quiet (s : State W) (e : ShipEvent) (a : Bool) :
    Quiet s (handleScan c s e a).1 := by
  simp only [handleScan, Quiet]
  cases e.targetGovernment with
  | none =>
    simp only []
    split_ifs <;> simp [ShowScanDialog, State.push, State.call, handledEvents_append,
      handledEvents, producedEvents_append, producedEvents, goCount_append, goCount]
  | some g =>
    simp only []
    split_ifs <;> simp [ShowScanDialog, State.push, State.call, handledEvents_append,
      handledEvents, producedEvents_append, producedEvents, goCount_append, goCount]

theorem secondaryChecks_quiet (s : State W) (e : ShipEvent) :
    Quiet s (secondaryChecks c s e).1 := by
  unfold secondaryChecks
  exact (handleBoarding_quiet c s e true).trans (handleScan_quiet c _ e _)

theorem notifyFront_fields (s : State W) (e : ShipEvent) :
    (notifyFront c s e).eventQueue = s.eventQueue
      ∧ (notifyFront c s e).handledFront = true
      ∧ handledEvents (notifyFront c s e).log
          = handledEvents s.log ++ (if s.handledFront then [] else [e]) := by
  simp only [notifyFront]
  cases s.handledFront <;> simp [State.call, handledEvents_append, handledEvents]

theorem drainLoop_inv (all : List ShipEvent) (q : List ShipEvent) :
    ∀ (s : State W) (a : Bool), s.eventQueue = q → DrainInv all s →
      DrainInv all (drainLoop c q s a).1 := by
  induction q with
  | nil => intro s a _ h; simpa [drainLoop] using h
  | cons e rest ih =>
    intro s a hq h
    simp only [drainLoop]
    obtain ⟨n1, n2, n3⟩ := notifyFront_fields c s e
    have h1 : DrainInv all (notifyFront c s e) := by
      obtain ⟨retired, r1, r2, _⟩ := h
      refine ⟨retired, by rw [n1]; exact r1, ?_, by rw [n1, hq]; simp⟩
      rw [n3, r2, n2, n1, hq]
      cases s.handledFront <;> simp
    split_ifs with ha ht
    · exact h
    · exact h1
    · obtain ⟨k1, _, _, _, k3, _, _⟩ := secondaryChecks_quiet c (notifyFront c s e) e
      apply ih
      · simp [popFront, k1, n1, hq]
      · obtain ⟨retired, r1, r2, _⟩ := h1
        refine ⟨retired ++ [e], ?_, ?_, ?_⟩
        · simp [popFront, k1, n1, hq, r1]
        · simp [popFront, k3, r2, n2, n1, hq]
        · simp [popFront]

theorem StepEvents_inv (all : List ShipEvent) (s : State W) (a : Bool) (h : DrainInv all s) :
    DrainInv all (StepEvents c s a).1 :=
  drainLoop_inv c all s.eventQueue s a rfl h

theorem runDrains_inv (fs : List (Frame W)) :
    ∀ (all : List ShipEvent) (s : State W), DrainInv all s →
      DrainInv (all ++ producedBy fs) (runDrains c s fs) := by
  induction fs with
  | nil => intro all s h; simpa [runDrains, producedBy] using h
  | cons f fs ih =>
    intro all s h
    simp only [runDrains, producedBy]
    rw [← List.append_assoc]
    apply ih
    apply StepEvents_inv
    obtain ⟨retired, r1, r2, r3⟩ := h
    refine ⟨retired, by simp [r1], ?_, ?_⟩
    · simp only [r2]
      cases hf : s.handledFront
      · simp
      · have := r3 hf
        cases hq : s.eventQueue with
        | nil => exact absurd hq this
        | cons x xs => simp
    · intro hf
      have := r3 hf
      simp [this]

theorem call_quiet (s : State W) (k : Call) (w : W)
    (h : handledEvents [k] = [] ∧ producedEvents [k] = [] ∧ goCount [k] = 0) :
    Quiet s (s.call k w) := by
  simp [Quiet, State.call, handledEvents_append, producedEvents_append, goCount_append, h.1,
    h.2.1, h.2.2]

theorem push_quiet (s : State W) (x : Surface) : Quiet s (s.push c x) :=
  call_quiet s _ _ (by exact ⟨rfl, rfl, rfl⟩)

theorem perform_quiet (ks : List Call) : ∀ s : State W, Quiet s (s.perform c ks) := by
  induction ks with
  | nil => intro s; exact Quiet.refl s
  | cons k ks ih =>
    intro s
    cases k <;> simp only [State.perform] <;> first
      | exact ih s
      | exact (push_quiet c s _).trans (ih _)
      | exact (call_quiet s _ _ (by exact ⟨rfl, rfl, rfl⟩)).trans (ih _)

theorem setShow_quiet (s : State W) (x : Command) : Quiet s { s with showCommand := x } := by
  simp [Quiet]

theorem stepShow_quiet (s : State W) :
    Quiet s (stepShow c s).1 := by
  have h0 : Quiet s (s.call Call.engineWait (c.engineWait s.world)) :=
    call_quiet s _ _ (by exact ⟨rfl, rfl, rfl⟩)
  simp only [stepShow]
  refine Quiet.trans (h0.trans ?_) (setShow_quiet _ _)
  split_ifs
  · exact push_quiet c _ _
  · exact push_quiet c _ _
  · exact perform_quiet c _ _
  · exact Quiet.refl _

theorem stepLanding_quiet (s : State W) (a : Bool) : Quiet s (stepLanding c s a).1 := by
  simp only [stepLanding]
  cases c.playerPlanet s.world with
  | none => exact Quiet.refl s
  | some p =>
    simp only []
    split_ifs
    · exact ((push_quiet c s _).trans (call_quiet _ _ _ (by exact ⟨rfl, rfl, rfl⟩))).trans
        (call_quiet _ _ _ (by exact ⟨rfl, rfl, rfl⟩))
    · exact Quiet.refl s

theorem helpIf_quiet (cond : W → Bool) (name : String) (p : State W × Bool) :
    Quiet p.1 (helpIf c cond name p).1 := by
  simp only [helpIf]
  split_ifs
  · exact call_quiet _ _ _ (by exact ⟨rfl, rfl, rfl⟩)
  · exact Quiet.refl _

theorem helpIf2_quiet (cond : W → Bool) (a b : String) (p : State W × Bool) :
    Quiet p.1 (helpIf2 c cond a b p).1 := by
  simp only [helpIf2]
  split_ifs
  · exact call_quiet _ _ _ (by exact ⟨rfl, rfl, rfl⟩)
  · exact (call_quiet _ _ _ (by exact ⟨rfl, rfl, rfl⟩)).trans
      (call_quiet _ _ _ (by exact ⟨rfl, rfl, rfl⟩))
  · exact Quiet.refl _

theorem helpLost_quiet (f : Flagship) (p : State W × Bool) :
    Quiet p.1 (helpLost c f p).1 := by
  simp only [helpLost]
  split_ifs
  · simp [Quiet, State.call, handledEvents_append, producedEvents_append, goCount_append,
      handledEvents, producedEvents, goCount]
  · simp [Quiet]
  · exact Quiet.refl _

theorem stepHelp_quiet (s : State W) (a : Bool) : Quiet s (stepHelp c s a).1 := by
  simp only [stepHelp]
  cases c.flagship s.world with
  | none => exact Quiet.refl s
  | some f =>
    simp only []
    refine Quiet.trans ?_ (helpLost_quiet c f _)
    refine Quiet.trans ?_ (helpIf_quiet c _ _ _)
    refine Quiet.trans ?_ (helpIf_quiet c _ _ _)
    refine Quiet.trans ?_ (helpIf2_quiet c _ _ _ _)
    refine Quiet.trans ?_ (helpIf_quiet c _ _ _)
    refine Quiet.trans ?_ (helpIf_quiet c _ _ _)
    refine Quiet.trans ?_ (helpIf_quiet c _ _ _)
    refine Quiet.trans ?_ (helpIf_quiet c _ _ _)
    refine Quiet.trans ?_ (helpIf_quiet c _ _ _)
    refine Quiet.trans ?_ (helpIf_quiet c _ _ _)
    refine Quiet.trans ?_ (helpIf_quiet c _ _ _)
    exact helpIf_quiet c _ _ (s, a)

theorem stepBeforeEngine_quiet (s : State W) : Quiet s (stepBeforeEngine c s).1 := by
  simp only [stepBeforeEngine]
  exact ((stepShow_quiet c s).trans (stepLanding_quiet c _ _)).trans (stepHelp_quiet c _ _)

theorem notifyFront_rest (s : State W) (e : ShipEvent) :
    (notifyFront c s e).canDrag = s.canDrag ∧ (notifyFront c s e).canClick = s.canClick
      ∧ producedEvents (notifyFront c s e).log = producedEvents s.log
      ∧ goCount (notifyFront c s e).log = goCount s.log := by
  simp only [notifyFront]
  cases s.handledFront <;>
    simp [State.call, producedEvents_append, producedEvents, goCount_append, goCount]

/-- The drain only pops at the head; it leaves the input flags alone and makes
no engine call. -/
theorem drainLoop_suffix (q : List ShipEvent) :
    ∀ (s : State W) (a : Bool), s.eventQueue = q →
      (drainLoop c q s a).1.eventQueue <:+ q
        ∧ (drainLoop c q s a).1.canDrag = s.canDrag
        ∧ (drainLoop c q s a).1.canClick = s.canClick
        ∧ producedEvents (drainLoop c q s a).1.log = producedEvents s.log
        ∧ goCount (drainLoop c q s a).1.log = goCount s.log := by
  induction q with
  | nil => intro s a h; simp [drainLoop, h]
  | cons e rest ih =>
    intro s a hq
    simp only [drainLoop]
    obtain ⟨n1, _, _⟩ := notifyFront_fields c s e
    obtain ⟨m1, m2, m3, m4⟩ := notifyFront_rest c s e
    split_ifs with ha ht
    · simp [hq]
    · simp [n1, hq, m1, m2, m3, m4]
    · obtain ⟨k1, _, k3, k4, _, k6, k7⟩ := secondaryChecks_quiet c (notifyFront c s e) e
      have := ih (popFront (secondaryChecks c (notifyFront c s e) e).1)
        (secondaryChecks c (notifyFront c s e) e).2 (by simp [popFront, k1, n1, hq])
      obtain ⟨i1, i2, i3, i4, i5⟩ := this
      refine ⟨i1.trans (List.suffix_cons e rest), ?_, ?_, ?_, ?_⟩
      · rw [i2]; simp [popFront, k3, m1]
      · rw [i3]; simp [popFront, k4, m2]
      · rw [i4]; simp [popFront, k6, m3]
      · rw [i5]; simp [popFront, k7, m4]

theorem stepEngine_fields (s : State W) (a : Bool) :
    (stepEngine c s a).eventQueue = s.eventQueue ++ (c.engineEvents (c.engineStep s.world a)).1
      ∧ (stepEngine c s a).handledFront = s.handledFront
      ∧ (stepEngine c s a).canDrag = s.canDrag
      ∧ (stepEngine c s a).canClick = s.canClick
      ∧ handledEvents (stepEngine c s a).log = handledEvents s.log
      ∧ producedEvents (stepEngine c s a).log
          = producedEvents s.log ++ (c.engineEvents (c.engineStep s.world a)).1
      ∧ goCount (stepEngine c s a).log = goCount s.log := by
  simp [stepEngine, State.call, handledEvents_append, handledEvents, producedEvents_append,
    producedEvents, goCount_append, goCount]

theorem stepFinish_fields (s : State W) (a : Bool) :
    (stepFinish c s a).eventQueue = s.eventQueue
      ∧ (stepFinish c s a).handledFront = s.handledFront
      ∧ (stepFinish c s a).canClick = a
      ∧ (stepFinish c s a).canDrag = (if a then s.canDrag else false)
      ∧ handledEvents (stepFinish c s a).log = handledEvents s.log
      ∧ producedEvents (stepFinish c s a).log = producedEvents s.log
      ∧ goCount (stepFinish c s a).log = goCount s.log + (if a then 1 else 0) := by
  cases a <;> simp [stepFinish, State.call, handledEvents_append, handledEvents,
    producedEvents_append, producedEvents, goCount_append, goCount]

/-- One frame keeps `retired ++ queue = initial queue ++ produced`. -/
theorem Step_retires (s : State W) :
    ∃ popped, (s.eventQueue ++ (producedEvents (Step c s).log).drop (producedEvents s.log).length)
        = popped ++ (Step c s).eventQueue
      ∧ producedEvents s.log <+: producedEvents (Step c s).log := by
  simp only [Step, stepThroughDrain, StepEvents]
  obtain ⟨q1, _, _, _, _, q6, _⟩ := stepBeforeEngine_quiet c s
  obtain ⟨e1, _, _, _, _, e6, _⟩ := stepEngine_fields c (stepBeforeEngine c s).1
    (stepBeforeEngine c s).2
  obtain ⟨d1, _, _, d4, _⟩ := drainLoop_suffix c _ (stepEngine c (stepBeforeEngine c s).1
    (stepBeforeEngine c s).2) (stepBeforeEngine c s).2 rfl
  obtain ⟨f1, _, _, _, _, f6, _⟩ := stepFinish_fields c
    (drainLoop c (stepEngine c (stepBeforeEngine c s).1 (stepBeforeEngine c s).2).eventQueue
      (stepEngine c (stepBeforeEngine c s).1 (stepBeforeEngine c s).2)
      (stepBeforeEngine c s).2).1
    (drainLoop c (stepEngine c (stepBeforeEngine c s).1 (stepBeforeEngine c s).2).eventQueue
      (stepEngine c (stepBeforeEngine c s).1 (stepBeforeEngine c s).2)
      (stepBeforeEngine c s).2).2
  rw [f1, f6, d4, e6, q6]
  obtain ⟨popped, hp⟩ := d1
  refine ⟨popped, ?_, by simp⟩
  rw [hp, e1, q1]
  simp

theorem runSteps_retires (ins : List (Input W)) :
    ∀ (s : State W), ∃ retired,
      s.eventQueue ++ (producedEvents (runSteps c s ins).log).drop (producedEvents s.log).length
        = retired ++ (runSteps c s ins).eventQueue
      ∧ producedEvents s.log <+: producedEvents (runSteps c s ins).log := by
  induction ins with
  | nil => intro s; exact ⟨[], by simp [runSteps], by simp [runSteps]⟩
  | cons i ins ih =>
    intro s
    simp only [runSteps]
    obtain ⟨p1, h1, ⟨x, hx⟩⟩ := Step_retires c
      { s with world := i.world, showCommand := i.showCommand, canDrag := i.canDrag }
    obtain ⟨p2, h2, ⟨y, hy⟩⟩ := ih (Step c
      { s with world := i.world, showCommand := i.showCommand, canDrag := i.canDrag })
    simp only [] at h1 hx
    refine ⟨p1 ++ p2, ?_, ⟨x ++ y, by rw [← hy, ← hx]; simp⟩⟩
    rw [List.append_assoc, ← h2, ← hy, ← hx]
    rw [← hx] at h1
    simp only [List.drop_left, List.append_assoc, List.drop_left'] at h1 ⊢
    simp at h1 ⊢
    rw [← List.append_assoc, h1, List.append_assoc]

theorem notifyFront_handled (s : State W) (e : ShipEvent) (hf : s.handledFront = true) :
    notifyFront c s e = s := by
  cases s
  simp only [notifyFront] at *
  simp [hf]

/-- Re-entering the drain on a head event that was already notified: the
secondary checks run, the event is popped, the drain goes on. -/
theorem StepEvents_resume (s : State W) (e : ShipEvent) (rest : List ShipEvent)
    (hq : s.eventQueue = e :: rest) (hf : s.handledFront = true)
    (ht : c.isTop s.world = true) :
    StepEvents c s true
        = StepEvents c (popFront (secondaryChecks c s e).1) (secondaryChecks c s e).2
      ∧ handledEvents (secondaryChecks c s e).1.log = handledEvents s.log
      ∧ (popFront (secondaryChecks c s e).1).eventQueue = rest
      ∧ (popFront (secondaryChecks c s e).1).handledFront = false := by
  obtain ⟨k1, _, _, _, k5, _, _⟩ := secondaryChecks_quiet c s e
  have hp : (popFront (secondaryChecks c s e).1).eventQueue = rest := by
    simp [popFront, k1, hq]
  refine ⟨?_, k5, hp, by simp [popFront]⟩
  simp only [StepEvents, hp]
  rw [hq]
  simp [drainLoop, notifyFront_handled c s e hf, ht]

/-- Re-entering the drain on a head event that was already notified while the
controller is still covered: the re-check of line 852 ends the call at once,
with nothing changed. -/
theorem StepEvents_still_covered (s : State W) (e : ShipEvent) (rest : List ShipEvent)
    (hq : s.eventQueue = e :: rest) (hf : s.handledFront = true)
    (ht : c.isTop s.world = false) :
    StepEvents c s true = (s, false) := by
  simp only [StepEvents]
  rw [hq]
  simp [drainLoop, notifyFront_handled c s e hf, ht]

/-- A round of the drain in which the controller is top after the notification:
the secondary checks run, the event is popped, the drain goes on. -/
theorem StepEvents_round (s : State W) (e : ShipEvent) (rest : List ShipEvent)
    (hq : s.eventQueue = e :: rest) (ht : c.isTop (notifyFront c s e).world = true) :
    StepEvents c s true
        = StepEvents c (popFront (secondaryChecks c (notifyFront c s e) e).1)
            (secondaryChecks c (notifyFront c s e) e).2
      ∧ (popFront (secondaryChecks c (notifyFront c s e) e).1).eventQueue = rest := by
  obtain ⟨k1, _, _, _, _, _, _⟩ := secondaryChecks_quiet c (notifyFront c s e) e
  have hp : (popFront (secondaryChecks c (notifyFront c s e) e).1).eventQueue = rest := by
    simp [popFront, k1, (notifyFront_fields c s e).1, hq]
  refine ⟨?_, hp⟩
  simp only [StepEvents, hp]
  rw [hq]
  simp [drainLoop, ht]

/-- The guard of line 874: no boarding block for a destroyed target. -/
theorem boardingGuard_destroyed (w : W) (e : ShipEvent)
    (hd : c.isDestroyed w e.target = true) : boardingGuard c w e = none := by
  simp only [boardingGuard]
  cases c.flagship w with
  | none => rfl
  | some f => simp [hd]

/-- With a destroyed target the secondary checks are the scan block alone. -/
theorem secondaryChecks_destroyed (s : State W) (e : ShipEvent)
    (hd : c.isDestroyed s.world e.target = true) :
    secondaryChecks c s e = handleScan c s e true := by
  simp [secondaryChecks, handleBoarding, boardingGuard_destroyed c s.world e hd]

theorem boardingGuard_of (w : W) (e : ShipEvent) (f : Flagship)
    (hf : c.flagship w = some f) (hb : e.type &&& (BOARD ||| ASSIST) ≠ 0)
    (hp : c.isPlayer e.actorGovernment = true) (hd : c.isDestroyed w e.target = false)
    (ha : e.actor = f.id) : boardingGuard c w e = some f := by
  simp [boardingGuard, hf, hb, hp, hd, ha]

/-- The calls of the scan checks: at most a fine query and one dialog. -/
theorem handleScan_log (s : State W) (e : ShipEvent) (a : Bool) :
    ∃ ks, (handleScan c s e a).1.log = s.log ++ ks
      ∧ ∀ k ∈ ks, k = Call.fine e ∨ ∃ t, k = Call.push (Surface.Dialog t) := by
  simp only [handleScan]
  cases e.targetGovernment with
  | none =>
    simp only []
    split_ifs
    · exact ⟨[Call.push (Surface.Dialog (c.scanText s.world e))],
        by simp [ShowScanDialog, State.push, State.call], by simp⟩
    · exact ⟨[], by simp, by simp⟩
    · exact ⟨[], by simp, by simp⟩
  | some g =>
    simp only []
    split_ifs
    · exact ⟨[Call.push (Surface.Dialog (c.scanText s.world e))],
        by simp [ShowScanDialog, State.push, State.call], by simp⟩
    · exact ⟨[Call.fine e, Call.push (Surface.Dialog (c.fine s.world e).1)],
        by simp [State.push, State.call], by simp⟩
    · exact ⟨[Call.fine e], by simp [State.call], by simp⟩
    · exact ⟨[], by simp, by simp⟩
    · exact ⟨[], by simp, by simp⟩

theorem handleBoarding_log (s : State W) (e : ShipEvent) (a : Bool) (f : Flagship)
    (hg : boardingGuard c s.world e = some f) :
    (handleBoarding c s e a).1.log
      = (boardingMissionStage c s e f).log ++
        (if c.isTop (boardingMissionStage c s e f).world = true ∧ e.type = BOARD
            ∧ c.isDestroyed (boardingMissionStage c s e f).world e.target = false
            ∧ c.isEnemy (boardingMissionStage c s e f).world e.target = true
          then [Call.push (Surface.BoardingPanel e.target)] else []) := by
  simp only [handleBoarding, hg]
  split_ifs <;> simp [State.push, State.call]

theorem boardingMissionStage_blocked (s : State W) (e : ShipEvent) (f : Flagship) (m : MissionId)
    (hm : (c.boardingMission s.world e.target).1 = some m)
    (hs : c.hasSpace (c.boardingMission s.world e.target).2 m f = false) :
    boardingMissionStage c s e f
      = { s with
          world := c.handleBlockedMissions (c.boardingMission s.world e.target).2
            (if e.type &&& BOARD ≠ 0 then MissionLocation.BOARDING
              else MissionLocation.ASSISTING)
          log := s.log ++ [Call.boardingMission e.target,
            Call.handleBlockedMissions (if e.type &&& BOARD ≠ 0 then MissionLocation.BOARDING
              else MissionLocation.ASSISTING)] } := by
  simp [boardingMissionStage, hm, hs, State.call]

/-- The three outcomes of `ShowHailPanel`: a silent refusal, one message, or
one surface. -/
theorem ShowHailPanel_cases (v : HailView) :
    (ShowHailPanel v = ([], false)
        ∧ (v.flagship = none
          ∨ ∃ f, v.flagship = some f ∧ (f.isDestroyed = true ∨ f.zoom < 1)))
      ∨ ((∃ text, ShowHailPanel v = ([Call.messagesAdd text], false))
        ∧ ∃ f, v.flagship = some f ∧ f.isDestroyed = false ∧ ¬ f.zoom < 1)
      ∨ ((∃ x, ShowHailPanel v = ([Call.push x], true))
        ∧ ∃ f, v.flagship = some f ∧ f.isDestroyed = false ∧ ¬ f.zoom < 1) := by
  cases hf : v.flagship with
  | none => left; simp [ShowHailPanel, hf]
  | some f =>
    by_cases hd : f.isDestroyed = true
    · left; simp [ShowHailPanel, hf, hd]
    · by_cases hz : f.zoom < 1
      · left; simp [ShowHailPanel, hf, hz]
      · right
        have hd' : f.isDestroyed = false := by simpa using hd
        simp only [ShowHailPanel, hf, hd', hz]
        simp only [Bool.false_eq_true, if_false]
        split_ifs
        · left; exact ⟨⟨_, rfl⟩, f, rfl, hd', hz⟩
        · left; exact ⟨⟨_, rfl⟩, f, rfl, hd', hz⟩
        · cases hailTarget v f with
          | some t =>
            simp only []
            split_ifs
            · left; exact ⟨⟨_, rfl⟩, f, rfl, hd', hz⟩
            · left; exact ⟨⟨_, rfl⟩, f, rfl, hd', hz⟩
            · right; exact ⟨⟨_, rfl⟩, f, rfl, hd', hz⟩
          | none =>
            simp only []
            cases f.targetStellar with
            | none => left; exact ⟨⟨_, rfl⟩, f, rfl, hd', hz⟩
            | some st =>
              simp only []
              cases st.planet with
              | none => left; exact ⟨⟨_, rfl⟩, f, rfl, hd', hz⟩
              | some p =>
                simp only []
                split_ifs
                · left; exact ⟨⟨_, rfl⟩, f, rfl, hd', hz⟩
                · right; exact ⟨⟨_, rfl⟩, f, rfl, hd', hz⟩
                · left; exact ⟨⟨_, rfl⟩, f, rfl, hd', hz⟩

theorem stepLanding_inactive (s : State W) : stepLanding c s false = (s, false) := by
  simp only [stepLanding]
  cases c.playerPlanet s.world <;> simp

theorem helpIf_inactive (cond : W → Bool) (name : String) (s : State W) :
    helpIf c cond name (s, false) = (s, false) := by
  simp [helpIf]

theorem helpIf2_inactive (cond : W → Bool) (a b : String) (s : State W) :
    helpIf2 c cond a b (s, false) = (s, false) := by
  simp [helpIf2]

theorem helpLost_inactive (f : Flagship) (s : State W) :
    helpLost c f (s, false) = (s, false) := by
  simp [helpLost]

theorem stepHelp_inactive (s : State W) : stepHelp c s false = (s, false) := by
  simp only [stepHelp]
  cases c.flagship s.world with
  | none => rfl
  | some f => simp only [helpIf_inactive, helpIf2_inactive, helpLost_inactive]

theorem StepEvents_inactive (s : State W) : StepEvents c s false = (s, false) := by
  simp only [StepEvents]
  cases s.eventQueue <;> simp [drainLoop]

/-- Once `isActive` is false after the requested panels, the rest of the frame
shows nothing, steps the engine as inactive and does not start the next tick. -/
theorem Step_inactive (s : State W) (h : (stepShow c s).2 = false) :
    (stepThroughDrain c s).2 = false
      ∧ (Step c s).canClick = false
      ∧ (Step c s).canDrag = false
      ∧ (Step c s).log = (stepShow c s).1.log ++ [Call.engineStep false,
          Call.engineEvents (c.engineEvents (c.engineStep (stepShow c s).1.world false)).1] := by
  have h1 : stepBeforeEngine c s = ((stepShow c s).1, false) := by
    simp only [stepBeforeEngine, h, stepLanding_inactive, stepHelp_inactive]
  have h2 : stepThroughDrain c s = (stepEngine c (stepShow c s).1 false, false) := by
    simp only [stepThroughDrain, h1, StepEvents_inactive]
  simp only [Step, h2]
  simp [stepFinish, stepEngine, State.call]

/-- Outside the hail line, a controller that is not on top when the frame
begins stays inactive through the requested panels. -/
theorem stepShow_inactive_unless_hail (s : State W)
    (h0 : c.isTopDrawn (c.engineWait s.world) = false)
    (hh : s.showCommand.hasMAP = true ∨ s.showCommand.hasINFO = true
      ∨ s.showCommand.hasHAIL = false) :
    (stepShow c s).2 = false := by
  simp only [stepShow, State.call]
  split_ifs with h1 h2 h3
  · rfl
  · rfl
  · rcases hh with h | h | h
    · exact absurd h h1
    · exact absurd h h2
    · rw [h] at h3; exact absurd h3 (by simp)
  · exact h0

theorem helpNames_append (ks ls : List Call) :
    helpNames (ks ++ ls) = helpNames ks ++ helpNames ls := by
  induction ks with
  | nil => rfl
  | cons k ks ih => cases k <;> simp [helpNames, ih]

theorem stage_arith (L K : Nat)
    (h : K = (if L = 0 then 0 else min 7 (1 + L / 3600))) :
    (1 + (L + 1) / 3600 > K ∧ 1 + (L + 1) / 3600 ≤ 7 →
        K + 1 = min 7 (1 + (L + 1) / 3600))
      ∧ (¬ (1 + (L + 1) / 3600 > K ∧ 1 + (L + 1) / 3600 ≤ 7) →
        K = min 7 (1 + (L + 1) / 3600)) := by
  simp only [min_def] at h ⊢
  constructor
  · intro h'
    split_ifs at h ⊢ <;> omega
  · intro h'
    split_ifs at h ⊢ <;> omega

/-- Below the largest `int`, `++lostness` is the successor. -/
theorem wrapInt_succ (n : Nat) (h : n < 2147483647) :
    wrapInt ((n : Int) + 1) = ((n + 1 : Nat) : Int) := by
  unfold wrapInt
  push_cast
  omega

/-- At the largest `int`, `++lostness` wraps to the smallest. -/
theorem wrapInt_overflow : wrapInt (((2147483647 : Nat) : Int) + 1) = -2147483648 := by
  decide

/-- On a count of frames, the truncating division is the division of naturals. -/
theorem tdiv_natCast (n : Nat) : Int.tdiv (n : Int) 3600 = ((n / 3600 : Nat) : Int) :=
  rfl

/-- The test of line 142 on a count of frames. -/
theorem count_guard (n K : Nat) :
    (1 + Int.tdiv (n : Int) 3600 > (K : Int) ∧ 1 + Int.tdiv (n : Int) 3600 ≤ 7)
      ↔ (1 + n / 3600 > K ∧ 1 + n / 3600 ≤ 7) := by
  rw [tdiv_natCast]
  constructor
  · intro h; omega
  · intro h; omega

/-- Lines 139-149 with the test of line 137 true. -/
theorem helpLost_eq (s : State W) (f : Flagship) (hl : lostInSpace c s.world f) :
    helpLost c f (s, true)
      = if 1 + Int.tdiv (wrapInt (s.lostness + 1)) 3600 > (s.lostCount : Int)
            ∧ 1 + Int.tdiv (wrapInt (s.lostness + 1)) 3600 ≤ 7 then
          (({ s with lostness := wrapInt (s.lostness + 1), lostCount := s.lostCount + 1 }
              : State W).call (Call.doHelp (lostMessage s.lostCount))
              (c.doHelp s.world (lostMessage s.lostCount)).2,
            !(c.doHelp s.world (lostMessage s.lostCount)).1)
        else ({ s with lostness := wrapInt (s.lostness + 1) }, true) := by
  have hl' : (true = true ∧ f.isHyperspacing = false ∧ f.positionLength > 10000
      ∧ c.date s.world ≤ c.startDate s.world + 4) := ⟨rfl, hl⟩
  unfold helpLost
  rw [if_pos hl']

/-- One run of lines 137-150 with the predicate true and `isActive` true, below
the largest `int`. -/
theorem helpLost_runs (n : Nat) (s : State W) (f : Flagship) (hl : lostInSpace c s.world f)
    (hi : LostInv n s) (hn : n < 2147483647) :
    LostInv (n + 1) (helpLost c f (s, true)).1 := by
  obtain ⟨h0, h1, h2⟩ := hi
  obtain ⟨a1, a2⟩ := stage_arith n s.lostCount h1
  rw [helpLost_eq c s f hl, h0, wrapInt_succ n hn]
  by_cases hc : 1 + (n + 1) / 3600 > s.lostCount ∧ 1 + (n + 1) / 3600 ≤ 7
  · rw [if_pos ((count_guard (n + 1) s.lostCount).2 hc)]
    refine ⟨rfl, ?_, ?_⟩
    · simp only [State.call]
      rw [a1 hc]; simp
    · simp [State.call, helpNames_append, helpNames, h2, List.range_succ]
  · rw [if_neg (fun h => hc ((count_guard (n + 1) s.lostCount).1 h))]
    refine ⟨rfl, ?_, ?_⟩
    · simp only []
      rw [← a2 hc]; simp
    · simpa using h2

/-- Lines 137-150 skipped: nothing changes. -/
theorem helpLost_skips (s : State W) (f : Flagship) (a : Bool)
    (h : ¬ (a = true ∧ lostInSpace c s.world f)) :
    helpLost c f (s, a) = (s, a) := by
  unfold helpLost
  rw [if_neg h]

theorem runLost_append (xs ys : List (LostFrame W)) :
    ∀ s : State W, runLost c s (xs ++ ys) = runLost c (runLost c s xs) ys := by
  induction xs with
  | nil => intro s; rfl
  | cons x xs ih => intro s; simp only [List.cons_append, runLost]; exact ih _

/-- Frames in all of which lines 137-150 run, as long as `lostness` stays below
the largest `int`. -/
theorem runLost_all (frames : List (LostFrame W)) :
    ∀ (n : Nat) (s : State W), LostInv n s → n + frames.length ≤ 2147483647 →
      (∀ f ∈ frames, f.isActive = true ∧ lostInSpace c f.world f.flagship) →
      LostInv (n + frames.length) (runLost c s frames) := by
  induction frames with
  | nil => intro n s h _ _; exact h
  | cons f fs ih =>
    intro n s h hlen hall
    simp only [List.length_cons] at hlen
    simp only [runLost]
    have h0 : LostInv n { s with world := f.world } := h
    have hf := hall f (List.mem_cons_self f fs)
    have hstep := helpLost_runs c n { s with world := f.world } f.flagship hf.2 h0 (by omega)
    rw [hf.1]
    have := ih (n + 1) _ hstep (by omega) (fun g hg => hall g (List.mem_cons_of_mem f hg))
    simp only [List.length_cons]
    rw [show n + (fs.length + 1) = n + 1 + fs.length by omega]
    exact this

theorem fresh_lostInv (s : State W) (h0 : s.lostness = 0) (h1 : s.lostCount = 0) :
    LostInv 0 { s with log := [] } := by
  simp [LostInv, h0, h1, helpNames]

/-- What a fresh controller has passed to `DoHelp` after `n` frames in all of
which lines 137-150 ran. -/
theorem lost_names_after (s : State W) (frames : List (LostFrame W))
    (h0 : s.lostness = 0) (h1 : s.lostCount = 0) (hlen : frames.length ≤ 2147483647)
    (hall : ∀ f ∈ frames, f.isActive = true ∧ lostInSpace c f.world f.flagship) :
    helpNames (runLost c { s with log := [] } frames).log
      = (List.range (if frames.length = 0 then 0 else min 7 (1 + frames.length / 3600))).map
          lostMessage := by
  have hi := runLost_all c frames 0 _ (fresh_lostInv s h0 h1) (by omega) hall
  obtain ⟨_, i1, i2⟩ := hi
  rw [i2, i1]
  simp only [Nat.zero_add]

/-- The frame on which `lostness` overflows. A fresh controller after 2147483647
frames in all of which lines 137-150 ran has `lostness = 2147483647` and
`lostCount = 7`; one more such frame wraps `lostness` to the smallest `int` and
leaves `lostCount` at 7. -/
theorem runLost_overflow (s : State W) (frames : List (LostFrame W)) (f : LostFrame W)
    (h0 : s.lostness = 0) (h1 : s.lostCount = 0) (h2 : s.log = [])
    (hlen : frames.length = 2147483647)
    (hall : ∀ g ∈ frames, g.isActive = true ∧ lostInSpace c g.world g.flagship)
    (hf : f.isActive = true ∧ lostInSpace c f.world f.flagship) :
    (runLost c s frames).lostness = 2147483647
      ∧ (runLost c s frames).lostCount = 7
      ∧ (runLost c s (frames ++ [f])).lostness = -2147483648
      ∧ (runLost c s (frames ++ [f])).lostCount = 7 := by
  have hs : LostInv 0 s := ⟨by rw [h0]; rfl, by rw [h1]; rfl, by rw [h2, h1]; rfl⟩
  have hi := runLost_all c frames 0 s hs (by omega) hall
  rw [hlen, Nat.zero_add] at hi
  obtain ⟨i0, i1, _⟩ := hi
  have hc : (runLost c s frames).lostCount = 7 := by
    rw [i1]; decide
  have hl : lostInSpace c ({ runLost c s frames with world := f.world } : State W).world
      f.flagship := hf.2
  have hstep : helpLost c f.flagship ({ runLost c s frames with world := f.world }, true)
      = ({ runLost c s frames with world := f.world, lostness := -2147483648 }, true) := by
    rw [helpLost_eq c _ _ hl]
    simp only []
    rw [i0, wrapInt_overflow, hc, if_neg (by decide)]
  refine ⟨i0, hc, ?_, ?_⟩
  · rw [runLost_append]
    simp only [runLost]
    rw [hf.1, hstep]
  · rw [runLost_append]
    simp only [runLost]
    rw [hf.1, hstep]
    exact hc

theorem lostNames_append (ks ls : List Call) :
    lostNames (ks ++ ls) = lostNames ks ++ lostNames ls := by
  simp [lostNames, helpNames_append]

theorem SameLost.same (s : State W) : SameLost s s := ⟨rfl, rfl, rfl⟩

theorem SameLost.chain {s t u : State W} (h1 : SameLost s t) (h2 : SameLost t u) :
    SameLost s u :=
  ⟨h2.1.trans h1.1, h2.2.1.trans h1.2.1, h2.2.2.trans h1.2.2⟩

theorem call_sameLost (s : State W) (k : Call) (w : W) (h : lostNames [k] = []) :
    SameLost s (s.call k w) := by
  simp [SameLost, State.call, lostNames_append, h]

theorem push_sameLost (s : State W) (x : Surface) : SameLost s (s.push c x) :=
  call_sameLost s _ _ rfl

theorem perform_sameLost (ks : List Call) : ∀ s : State W, SameLost s (s.perform c ks) := by
  induction ks with
  | nil => intro s; exact SameLost.same s
  | cons k ks ih =>
    intro s
    cases k <;> simp only [State.perform] <;> first
      | exact ih s
      | exact (push_sameLost c s _).chain (ih _)
      | exact (call_sameLost s _ _ (by rfl)).chain (ih _)

theorem setShow_sameLost (s : State W) (x : Command) :
    SameLost s { s with showCommand := x } :=
  ⟨rfl, rfl, rfl⟩

theorem stepShow_sameLost (s : State W) : SameLost s (stepShow c s).1 := by
  have h0 : SameLost s (s.call Call.engineWait (c.engineWait s.world)) :=
    call_sameLost s _ _ (by rfl)
  simp only [stepShow]
  refine SameLost.chain (h0.chain ?_) (setShow_sameLost _ _)
  split_ifs
  · exact push_sameLost c _ _
  · exact push_sameLost c _ _
  · exact perform_sameLost c _ _
  · exact SameLost.same _

theorem stepLanding_sameLost (s : State W) (a : Bool) : SameLost s (stepLanding c s a).1 := by
  simp only [stepLanding]
  cases c.playerPlanet s.world with
  | none => exact SameLost.same s
  | some p =>
    simp only []
    split_ifs
    · exact ((push_sameLost c s _).chain (call_sameLost _ _ _ (by rfl))).chain
        (call_sameLost _ _ _ (by rfl))
    · exact SameLost.same s

theorem helpIf_sameLost (cond : W → Bool) (name : String) (p : State W × Bool)
    (h : lostNames [Call.doHelp name] = []) :
    SameLost p.1 (helpIf c cond name p).1 := by
  simp only [helpIf]
  split_ifs
  · exact call_sameLost _ _ _ h
  · exact SameLost.same _

theorem helpIf2_sameLost (cond : W → Bool) (a b : String) (p : State W × Bool)
    (ha : lostNames [Call.doHelp a] = []) (hb : lostNames [Call.doHelp b] = []) :
    SameLost p.1 (helpIf2 c cond a b p).1 := by
  simp only [helpIf2]
  split_ifs
  · exact call_sameLost _ _ _ ha
  · exact (call_sameLost _ _ _ ha).chain (call_sameLost _ _ _ hb)
  · exact SameLost.same _

theorem lostSeq_of_sameLost {s t : State W} (h : SameLost s t) (hi : LostSeq s) :
    LostSeq t := by
  obtain ⟨_, a2, a3⟩ := h
  obtain ⟨i1, i2⟩ := hi
  exact ⟨by rw [a2]; exact i1, by rw [a3, a2]; exact i2⟩

theorem LostStepInv.of_sameLost {n : Nat} {s t : State W} (h : SameLost s t)
    (hi : LostStepInv n s) : LostStepInv n t := by
  obtain ⟨a1, a2, _⟩ := h
  obtain ⟨i1, i2⟩ := hi
  exact ⟨by rw [a1]; exact i1, by rw [a2]; exact i2⟩

theorem lostMessage_mem (k : Nat) (h : k < 7) : lostMessage k ∈ lostStageNames := by
  simp only [lostStageNames, List.mem_map, List.mem_range]
  exact ⟨k, h, rfl⟩

/-- Lines 137-150 in any state: skipped, run without a message, or run with the
message of the next stage. -/
theorem helpLost_cases (f : Flagship) (p : State W × Bool) :
    helpLost c f p = p
      ∨ (¬ (1 + Int.tdiv (wrapInt (p.1.lostness + 1)) 3600 > (p.1.lostCount : Int)
            ∧ 1 + Int.tdiv (wrapInt (p.1.lostness + 1)) 3600 ≤ 7)
          ∧ helpLost c f p = ({ p.1 with lostness := wrapInt (p.1.lostness + 1) }, p.2))
      ∨ ((1 + Int.tdiv (wrapInt (p.1.lostness + 1)) 3600 > (p.1.lostCount : Int)
            ∧ 1 + Int.tdiv (wrapInt (p.1.lostness + 1)) 3600 ≤ 7)
          ∧ helpLost c f p
            = (({ p.1 with lostness := wrapInt (p.1.lostness + 1),
                           lostCount := p.1.lostCount + 1 } : State W).call
                (Call.doHelp (lostMessage p.1.lostCount))
                (c.doHelp p.1.world (lostMessage p.1.lostCount)).2,
              !(c.doHelp p.1.world (lostMessage p.1.lostCount)).1)) := by
  unfold helpLost
  by_cases hr : p.2 = true ∧ f.isHyperspacing = false ∧ f.positionLength > 10000
      ∧ c.date p.1.world ≤ c.startDate p.1.world + 4
  · rw [if_pos hr]
    by_cases hc : 1 + Int.tdiv (wrapInt (p.1.lostness + 1)) 3600 > (p.1.lostCount : Int)
        ∧ 1 + Int.tdiv (wrapInt (p.1.lostness + 1)) 3600 ≤ 7
    · right; right
      refine ⟨hc, ?_⟩
      simp only []
      rw [if_pos hc]
    · right; left
      refine ⟨hc, ?_⟩
      simp only []
      rw [if_neg hc]
  · left
    rw [if_neg hr]

/-- Lines 137-150 keep the stage counter within 7 and the messages in order,
whatever `lostness` is. -/
theorem helpLost_lostSeq (f : Flagship) (p : State W × Bool) (hi : LostSeq p.1) :
    LostSeq (helpLost c f p).1 := by
  obtain ⟨h1, h2⟩ := hi
  rcases helpLost_cases c f p with h | ⟨_, h⟩ | ⟨hc, h⟩
  · rw [h]; exact ⟨h1, h2⟩
  · rw [h]; exact ⟨h1, h2⟩
  · rw [h]
    have hk : p.1.lostCount < 7 := by omega
    refine ⟨?_, ?_⟩
    · simp only [State.call]
      omega
    · have h3 : lostNames [Call.doHelp (lostMessage p.1.lostCount)]
          = [lostMessage p.1.lostCount] := by
        simp [lostNames, helpNames, lostMessage_mem _ hk]
      simp only [State.call]
      rw [lostNames_append, h2, h3, List.range_succ, List.map_append]
      rfl

/-- Lines 137-150 keep the stage counter in step with `lostness`, below the
largest `int`, whether they run or not. -/
theorem helpLost_lostStepInv (n : Nat) (f : Flagship) (p : State W × Bool)
    (hi : LostStepInv n p.1) (hn : n < 2147483647) :
    LostStepInv n (helpLost c f p).1 ∨ LostStepInv (n + 1) (helpLost c f p).1 := by
  obtain ⟨h0, h1⟩ := hi
  obtain ⟨a1, a2⟩ := stage_arith n p.1.lostCount h1
  rcases helpLost_cases c f p with h | ⟨hc, h⟩ | ⟨hc, h⟩
  · left; rw [h]; exact ⟨h0, h1⟩
  · right
    rw [h]
    rw [h0, wrapInt_succ n hn, count_guard] at hc
    refine ⟨?_, ?_⟩
    · simp only []
      rw [h0, wrapInt_succ n hn]
    · simp only []
      rw [← a2 hc]; simp
  · right
    rw [h]
    rw [h0, wrapInt_succ n hn, count_guard] at hc
    refine ⟨?_, ?_⟩
    · simp only [State.call]
      rw [h0, wrapInt_succ n hn]
    · simp only [State.call]
      rw [a1 hc]; simp

/-- The help block leaves the lost-in-space counters alone up to its last test,
lines 137-150. -/
theorem stepHelp_shape (s : State W) (a : Bool) :
    stepHelp c s a = (s, a)
      ∨ ∃ (f : Flagship) (p : State W × Bool),
          SameLost s p.1 ∧ stepHelp c s a = helpLost c f p := by
  simp only [stepHelp]
  cases c.flagship s.world with
  | none => exact Or.inl rfl
  | some f =>
    simp only []
    right
    refine ⟨f, _, ?_, rfl⟩
    refine SameLost.chain ?_ (helpIf_sameLost c _ _ _ (by decide))
    refine SameLost.chain ?_ (helpIf_sameLost c _ _ _ (by decide))
    refine SameLost.chain ?_ (helpIf2_sameLost c _ _ _ _ (by decide) (by decide))
    refine SameLost.chain ?_ (helpIf_sameLost c _ _ _ (by decide))
    refine SameLost.chain ?_ (helpIf_sameLost c _ _ _ (by decide))
    refine SameLost.chain ?_ (helpIf_sameLost c _ _ _ (by decide))
    refine SameLost.chain ?_ (helpIf_sameLost c _ _ _ (by decide))
    refine SameLost.chain ?_ (helpIf_sameLost c _ _ _ (by decide))
    refine SameLost.chain ?_ (helpIf_sameLost c _ _ _ (by decide))
    refine SameLost.chain ?_ (helpIf_sameLost c _ _ _ (by decide))
    exact helpIf_sameLost c _ _ (s, a) (by decide)

theorem stepHelp_lostSeq (s : State W) (a : Bool) (hi : LostSeq s) :
    LostSeq (stepHelp c s a).1 := by
  rcases stepHelp_shape c s a with h | ⟨f, p, hp, h⟩
  · rw [h]; exact hi
  · rw [h]; exact helpLost_lostSeq c f p (lostSeq_of_sameLost hp hi)

theorem stepHelp_lostStepInv (n : Nat) (s : State W) (a : Bool) (hi : LostStepInv n s)
    (hn : n < 2147483647) :
    LostStepInv n (stepHelp c s a).1 ∨ LostStepInv (n + 1) (stepHelp c s a).1 := by
  rcases stepHelp_shape c s a with h | ⟨f, p, hp, h⟩
  · rw [h]; exact Or.inl hi
  · rw [h]; exact helpLost_lostStepInv c n f p (LostStepInv.of_sameLost hp hi) hn

theorem stepEngine_sameLost (s : State W) (a : Bool) : SameLost s (stepEngine c s a) := by
  simp [SameLost, stepEngine, State.call, lostNames, helpNames_append, helpNames]

theorem stepFinish_sameLost (s : State W) (a : Bool) : SameLost s (stepFinish c s a) := by
  cases a <;>
    simp [SameLost, stepFinish, State.call, lostNames, helpNames_append, helpNames]

theorem notifyFront_sameLost (s : State W) (e : ShipEvent) :
    SameLost s (notifyFront c s e) := by
  simp only [notifyFront]
  cases s.handledFront <;>
    simp [SameLost, State.call, lostNames, helpNames_append, helpNames]

theorem boardingMissionStage_sameLost (s : State W) (e : ShipEvent) (f : Flagship) :
    SameLost s (boardingMissionStage c s e f) := by
  simp only [boardingMissionStage]
  cases (c.boardingMission s.world e.target).1 with
  | none => exact call_sameLost s _ _ (by rfl)
  | some m =>
    simp only []
    split_ifs <;>
      exact (call_sameLost s _ _ (by rfl)).chain (call_sameLost _ _ _ (by rfl))

theorem handleBoarding_sameLost (s : State W) (e : ShipEvent) (a : Bool) :
    SameLost s (handleBoarding c s e a).1 := by
  simp only [handleBoarding]
  cases boardingGuard c s.world e with
  | none => exact SameLost.same s
  | some f =>
    have h := boardingMissionStage_sameLost c s e f
    simp only []
    split_ifs
    · exact h.chain (push_sameLost c _ _)
    · exact h

theorem handleScan_sameLost (s : State W) (e : ShipEvent) (a : Bool) :
    SameLost s (handleScan c s e a).1 := by
  simp only [handleScan]
  cases e.targetGovernment with
  | none =>
    simp only []
    split_ifs
    · exact push_sameLost c _ _
    · exact SameLost.same s
    · exact SameLost.same s
  | some g =>
    simp only []
    split_ifs
    · exact push_sameLost c _ _
    · exact (call_sameLost s _ _ (by rfl)).chain (push_sameLost c _ _)
    · exact call_sameLost s _ _ (by rfl)
    · exact SameLost.same s
    · exact SameLost.same s

theorem secondaryChecks_sameLost (s : State W) (e : ShipEvent) :
    SameLost s (secondaryChecks c s e).1 := by
  unfold secondaryChecks
  exact (handleBoarding_sameLost c s e true).chain (handleScan_sameLost c _ e _)

theorem drainLoop_sameLost (q : List ShipEvent) :
    ∀ (s : State W) (a : Bool), SameLost s (drainLoop c q s a).1 := by
  induction q with
  | nil => intro s a; exact SameLost.same s
  | cons e rest ih =>
    intro s a
    simp only [drainLoop]
    split_ifs
    · exact SameLost.same s
    · exact notifyFront_sameLost c s e
    · refine ((notifyFront_sameLost c s e).chain (secondaryChecks_sameLost c _ e)).chain ?_
      exact SameLost.chain ⟨rfl, rfl, rfl⟩ (ih (popFront _) _)

/-- A frame touches the lost-in-space counters only in lines 137-150. -/
theorem Step_shape (s : State W) :
    ∃ (t : State W) (a : Bool), SameLost s t ∧ SameLost (stepHelp c t a).1 (Step c s) := by
  refine ⟨(stepLanding c (stepShow c s).1 (stepShow c s).2).1,
    (stepLanding c (stepShow c s).1 (stepShow c s).2).2,
    (stepShow_sameLost c s).chain (stepLanding_sameLost c _ _), ?_⟩
  simp only [Step, stepThroughDrain, stepBeforeEngine, StepEvents]
  exact ((stepEngine_sameLost c _ _).chain (drainLoop_sameLost c _ _ _)).chain
    (stepFinish_sameLost c _ _)

theorem Step_lostSeq (s : State W) (hi : LostSeq s) : LostSeq (Step c s) := by
  obtain ⟨t, a, h1, h2⟩ := Step_shape c s
  exact lostSeq_of_sameLost h2 (stepHelp_lostSeq c t a (lostSeq_of_sameLost h1 hi))

theorem Step_lostStepInv (n : Nat) (s : State W) (hi : LostStepInv n s)
    (hn : n < 2147483647) :
    LostStepInv n (Step c s) ∨ LostStepInv (n + 1) (Step c s) := by
  obtain ⟨t, a, h1, h2⟩ := Step_shape c s
  rcases stepHelp_lostStepInv c n t a (LostStepInv.of_sameLost h1 hi) hn with h | h
  · exact Or.inl (LostStepInv.of_sameLost h2 h)
  · exact Or.inr (LostStepInv.of_sameLost h2 h)

theorem runSteps_lostSeq (ins : List (Input W)) :
    ∀ s : State W, LostSeq s → LostSeq (runSteps c s ins) := by
  induction ins with
  | nil => intro s h; exact h
  | cons i ins ih =>
    intro s h
    simp only [runSteps]
    apply ih
    apply Step_lostSeq
    exact h

/-- Over a run of frames short enough for `lostness` to stay below the largest
`int`, the stage counter follows the number of frames in which lines 137-150
ran. -/
theorem runSteps_lostStepInv (ins : List (Input W)) :
    ∀ (n : Nat) (s : State W), LostStepInv n s → n + ins.length ≤ 2147483647 →
      ∃ m, m ≤ n + ins.length ∧ LostStepInv m (runSteps c s ins) := by
  induction ins with
  | nil => intro n s h _; exact ⟨n, by simp, h⟩
  | cons i ins ih =>
    intro n s h hlen
    simp only [List.length_cons] at hlen
    simp only [runSteps, List.length_cons]
    have h0 : LostStepInv n
        { s with world := i.world, showCommand := i.showCommand, canDrag := i.canDrag } := h
    rcases Step_lostStepInv c n _ h0 (by omega) with h1 | h1
    · obtain ⟨m, hm, hi⟩ := ih n _ h1 (by omega)
      exact ⟨m, by omega, hi⟩
    · obtain ⟨m, hm, hi⟩ := ih (n + 1) _ h1 (by omega)
      exact ⟨m, by omega, hi⟩

/-- The stage counter is bounded and sequential over every run of frames from
`lostness = 0`, `lostCount = 0`: `lostCount` never exceeds 7 and the lost-stage
messages passed to `DoHelp` are, in call order, the first `lostCount` of
`"lost 1"`, ..., `"lost 7"`. -/
theorem lost_stages_sequential (s : State W) (ins : List (Input W)) :
    (runSteps c { s with lostness := 0, lostCount := 0, log := [] } ins).lostCount ≤ 7
      ∧ lostNames (runSteps c { s with lostness := 0, lostCount := 0, log := [] } ins).log
          = (List.range
              (runSteps c { s with lostness := 0, lostCount := 0, log := [] } ins).lostCount).map
              lostMessage
      ∧ (List.range 7).map lostMessage
          = ["lost 1", "lost 2", "lost 3", "lost 4", "lost 5", "lost 6", "lost 7"] := by
  have hi : LostSeq (runSteps c { s with lostness := 0, lostCount := 0, log := [] } ins) := by
    apply runSteps_lostSeq
    exact ⟨by simp, rfl⟩
  exact ⟨hi.1, hi.2, by decide⟩

/-- Over a run of at most 2147483647 frames from `lostness = 0`,
`lostCount = 0`, `lostness` has not wrapped around and, once lines 137-150 have
run at all, `lostCount = min 7 (1 + lostness / 3600)`. -/
theorem lost_stage_formula_below_overflow (s : State W) (ins : List (Input W))
    (hlen : ins.length ≤ 2147483647) :
    0 ≤ (runSteps c { s with lostness := 0, lostCount := 0, log := [] } ins).lostness
      ∧ ((runSteps c { s with lostness := 0, lostCount := 0, log := [] } ins).lostness ≠ 0 →
          ((runSteps c { s with lostness := 0, lostCount := 0, log := [] } ins).lostCount : Int)
            = min 7 (1 + Int.tdiv
                (runSteps c { s with lostness := 0, lostCount := 0, log := [] } ins).lostness
                3600)) := by
  obtain ⟨m, _, h0, h1⟩ := runSteps_lostStepInv c ins 0
    { s with lostness := 0, lostCount := 0, log := [] } ⟨rfl, rfl⟩ (by omega)
  rw [h0, h1, tdiv_natCast]
  refine ⟨by omega, ?_⟩
  intro hne
  have hm : m ≠ 0 := by
    intro h; apply hne; rw [h]; rfl
  rw [if_neg hm]
  simp only [min_def]
  split_ifs <;> omega

/-- The latch is set only while its event is queued, and the loop ends
inactive or with an empty queue and the latch reset. -/
theorem drainLoop_latch (q : List ShipEvent) :
    ∀ (s : State W) (a : Bool), s.eventQueue = q → (s.handledFront = true → q ≠ []) →
      ((drainLoop c q s a).1.handledFront = true → (drainLoop c q s a).1.eventQueue ≠ [])
        ∧ ((drainLoop c q s a).2 = false
          ∨ ((drainLoop c q s a).1.eventQueue = []
            ∧ (drainLoop c q s a).1.handledFront = false)) := by
  induction q with
  | nil =>
    intro s a hq h
    simp only [drainLoop]
    have hf : s.handledFront = false := by
      cases hs : s.handledFront
      · rfl
      · exact absurd rfl (h hs)
    exact ⟨by simp [hf], Or.inr ⟨hq, hf⟩⟩
  | cons e rest ih =>
    intro s a hq h
    simp only [drainLoop]
    obtain ⟨n1, n2, _⟩ := notifyFront_fields c s e
    split_ifs with ha ht
    · exact ⟨fun hs => by rw [hq]; simp, Or.inl ha⟩
    · exact ⟨fun _ => by rw [n1, hq]; simp, Or.inl rfl⟩
    · obtain ⟨k1, _⟩ := secondaryChecks_quiet c (notifyFront c s e) e
      exact ih (popFront (secondaryChecks c (notifyFront c s e) e).1) _
        (by simp [popFront, k1, n1, hq]) (by simp [popFront])

theorem drainWhile_enough (q : List ShipEvent) :
    ∀ (s : State W) (a : Bool) (fuel : Nat), s.eventQueue = q → q.length < fuel →
      drainWhile c fuel s a = some (drainLoop c q s a) := by
  induction q with
  | nil =>
    intro s a fuel hq hfuel
    cases fuel with
    | zero => simp at hfuel
    | succ n => simp [drainWhile, hq, drainLoop]
  | cons e rest ih =>
    intro s a fuel hq hfuel
    cases fuel with
    | zero => simp at hfuel
    | succ n =>
      obtain ⟨n1, _, _⟩ := notifyFront_fields c s e
      obtain ⟨k1, _⟩ := secondaryChecks_quiet c (notifyFront c s e) e
      simp only [drainWhile, hq, drainLoop]
      split_ifs
      · rfl
      · rfl
      · exact ih _ _ n (by simp [popFront, k1, n1, hq])
          (by simp only [List.length_cons] at hfuel; omega)

theorem Step_latch (s : State W) (h : s.handledFront = true → s.eventQueue ≠ []) :
    (Step c s).handledFront = true → (Step c s).eventQueue ≠ [] := by
  obtain ⟨q1, q2, _⟩ := stepBeforeEngine_quiet c s
  obtain ⟨e1, e2, _⟩ := stepEngine_fields c (stepBeforeEngine c s).1 (stepBeforeEngine c s).2
  have hl := (drainLoop_latch c _ (stepEngine c (stepBeforeEngine c s).1 (stepBeforeEngine c s).2)
    (stepBeforeEngine c s).2 rfl (by
      intro hf
      rw [e2, q2] at hf
      rw [e1, q1]
      simp [h hf])).1
  obtain ⟨f1, f2, _⟩ := stepFinish_fields c (stepThroughDrain c s).1 (stepThroughDrain c s).2
  simp only [Step]
  rw [f1, f2]
  exact hl

theorem runSteps_latch (ins : List (Input W)) :
    ∀ s : State W, (s.handledFront = true → s.eventQueue ≠ []) →
      (runSteps c s ins).handledFront = true → (runSteps c s ins).eventQueue ≠ [] := by
  induction ins with
  | nil => intro s h; exact h
  | cons i ins ih =>
    intro s h
    simp only [runSteps]
    exact ih _ (Step_latch c _ h)

section StdMapLemmas

variable {K V : Type} (lt : K → K → Bool) (key : K) (init : V) (f : V → V)

end StdMapLemmas

/-- C1. Start with `handledFront = false` and an empty log, and run any sequence
of `StepEvents` calls, each entered with an arbitrary `isActive`, in an
arbitrary world and after an arbitrary splice of new events, against arbitrary
collaborators. Then the events passed to `player.HandleEvent`, in call order,
are exactly the events retired from the queue, followed by the head event when
`handledFront` is set: every popped event was notified exactly once, the head
at most once, no other queued event at all; the notified events are a prefix of
the events produced. -/
theorem handleEvent_exactly_once (c : Collaborators W) (s0 : State W) (fs : List (Frame W)) :
    ∃ retired,
      s0.eventQueue ++ producedBy fs
          = retired ++ (runDrains c { s0 with handledFront := false, log := [] } fs).eventQueue
      ∧ handledEvents (runDrains c { s0 with handledFront := false, log := [] } fs).log
          = retired ++
            (if (runDrains c { s0 with handledFront := false, log := [] } fs).handledFront
              then (runDrains c { s0 with handledFront := false, log := [] } fs).eventQueue.take 1
              else [])
      ∧ handledEvents (runDrains c { s0 with handledFront := false, log := [] } fs).log
          <+: s0.eventQueue ++ producedBy fs := by
  have h : DrainInv (s0.eventQueue ++ producedBy fs)
      (runDrains c { s0 with handledFront := false, log := [] } fs) := by
    apply runDrains_inv
    exact ⟨[], by simp, by simp [handledEvents], by simp⟩
  obtain ⟨retired, r1, r2, r3⟩ := h
  refine ⟨retired, r1, r2, ?_⟩
  rw [r1, r2]
  cases hf : (runDrains c { s0 with handledFront := false, log := [] } fs).handledFront
  · simp
  · simp only [if_true]
    refine ⟨(runDrains c { s0 with handledFront := false, log := [] } fs).eventQueue.drop 1, ?_⟩
    rw [List.append_assoc, List.take_append_drop]

/-- C2. Events leave `eventQueue` only at the head and enter only at the tail.
After any `StepEvents` call the queue is a suffix of the queue it was called
with; after the splice in `Step` (lines 153-157) the old queue is a prefix of
the new one; and over any sequence of frames, started with an empty log, the
initial queue followed by everything `engine.Events()` returned is the retired
events followed by the queue that is left, so the retired events are a prefix
of the production sequence, in order and without a gap. -/
theorem queue_is_fifo (c : Collaborators W) (s : State W) (isActive : Bool)
    (ins : List (Input W)) :
    (StepEvents c s isActive).1.eventQueue <:+ s.eventQueue
      ∧ s.eventQueue <+: (stepEngine c s isActive).eventQueue
      ∧ ∃ retired,
          s.eventQueue ++ producedEvents (runSteps c { s with log := [] } ins).log
            = retired ++ (runSteps c { s with log := [] } ins).eventQueue := by
  refine ⟨(drainLoop_suffix c s.eventQueue s isActive rfl).1, ?_, ?_⟩
  · rw [(stepEngine_fields c s isActive).1]
    exact List.prefix_append _ _
  · obtain ⟨retired, h, _⟩ := runSteps_retires c ins { s with log := [] }
    exact ⟨retired, by simpa [producedEvents] using h⟩

/-- C3 (as stated, refuted). Scenario A: the notification of the second event
shows a dialog, so the first call stops with that event at the head and
`handledFront = true`. The next call is entered with `isActive = true` while
the dialog is still on top (`GetUI()->Top() != this`): the re-check of line 852
stops it again, the event is not popped, and no secondary check nor any other
call is made. -/
theorem resume_needs_top_counterexample :
    (StepEvents demo scenarioA true).2 = false
      ∧ (StepEvents demo scenarioA true).1.handledFront = true
      ∧ (StepEvents demo scenarioA true).1.eventQueue
          = [demoEvent 16 5 3 6, demoEvent 128 5 3 6]
      ∧ (StepEvents demo scenarioA true).1.log
          = [Call.handleEvent (demoEvent 8 5 3 6), Call.handleEvent (demoEvent 16 5 3 6)]
      ∧ demo.isTop (StepEvents demo scenarioA true).1.world = false
      ∧ (StepEvents demo (StepEvents demo scenarioA true).1 true).1.eventQueue
          = [demoEvent 16 5 3 6, demoEvent 128 5 3 6]
      ∧ (StepEvents demo (StepEvents demo scenarioA true).1 true).1.handledFront = true
      ∧ (StepEvents demo (StepEvents demo scenarioA true).1 true).1.log
          = (StepEvents demo scenarioA true).1.log
      ∧ (StepEvents demo (StepEvents demo scenarioA true).1 true).2 = false := by
  decide

/-- C3 (amended). If `player.HandleEvent` for the head event leaves the
controller no longer top, `StepEvents` returns with the queue unchanged (that
event still at the head), `handledFront = true`, `isActive = false`, and the
notification is the only call it made for that event: no secondary check ran.
A later call entered with `isActive = true`, after any splice of new events at
the tail and in any world in which the controller is top of the stack again at
the re-check of line 852, runs that event's secondary checks with no second
`HandleEvent` for it, pops it, resets `handledFront` and goes on draining the
rest of the queue with the `isActive` the secondary checks left. A later call
entered with `isActive = true` in any world in which the controller is still
not top at that re-check returns at once with `isActive = false` and the state
it was entered in: the event at the head, `handledFront = true`, no call made. -/
theorem interrupted_notification_resumes (c : Collaborators W) (s : State W) (e : ShipEvent)
    (rest : List ShipEvent) (hq : s.eventQueue = e :: rest) (hf : s.handledFront = false)
    (hn : c.isTop (c.handleEvent s.world e) = false) :
    StepEvents c s true
        = ({ s with world := c.handleEvent s.world e, handledFront := true,
                    log := s.log ++ [Call.handleEvent e] }, false)
      ∧ (∀ (w : W) (produced : List ShipEvent), c.isTop w = true →
          StepEvents c
              { (StepEvents c s true).1 with
                world := w, eventQueue := (StepEvents c s true).1.eventQueue ++ produced } true
              = StepEvents c
                  (popFront (secondaryChecks c
                    { (StepEvents c s true).1 with
                      world := w
                      eventQueue := (StepEvents c s true).1.eventQueue ++ produced } e).1)
                  (secondaryChecks c
                    { (StepEvents c s true).1 with
                      world := w
                      eventQueue := (StepEvents c s true).1.eventQueue ++ produced } e).2
            ∧ handledEvents
                (secondaryChecks c
                  { (StepEvents c s true).1 with
                    world := w
                    eventQueue := (StepEvents c s true).1.eventQueue ++ produced } e).1.log
                = handledEvents s.log ++ [e]
            ∧ (popFront
                (secondaryChecks c
                  { (StepEvents c s true).1 with
                    world := w
                    eventQueue := (StepEvents c s true).1.eventQueue ++ produced }
                  e).1).eventQueue
                = rest ++ produced
            ∧ (popFront
                (secondaryChecks c
                  { (StepEvents c s true).1 with
                    world := w
                    eventQueue := (StepEvents c s true).1.eventQueue ++ produced }
                  e).1).handledFront
                = false)
      ∧ ∀ (w : W) (produced : List ShipEvent), c.isTop w = false →
          StepEvents c
              { (StepEvents c s true).1 with
                world := w, eventQueue := (StepEvents c s true).1.eventQueue ++ produced } true
              = ({ (StepEvents c s true).1 with
                    world := w
                    eventQueue := (StepEvents c s true).1.eventQueue ++ produced }, false)
            ∧ (StepEvents c s true).1.eventQueue ++ produced = e :: (rest ++ produced)
            ∧ (StepEvents c s true).1.handledFront = true
            ∧ (StepEvents c s true).1.log = s.log ++ [Call.handleEvent e] := by
  have h1 : StepEvents c s true
      = ({ s with world := c.handleEvent s.world e, handledFront := true,
                  log := s.log ++ [Call.handleEvent e] }, false) := by
    simp [StepEvents, drainLoop, hq, notifyFront, hf, hn, State.call]
  refine ⟨h1, ?_, ?_⟩
  · intro w produced hw
    obtain ⟨r1, r2, r3, r4⟩ := StepEvents_resume c
      { (StepEvents c s true).1 with
        world := w, eventQueue := (StepEvents c s true).1.eventQueue ++ produced } e
      (rest ++ produced) (by rw [h1]; simp [hq]) (by rw [h1]) hw
    refine ⟨r1, ?_, r3, r4⟩
    rw [r2, h1]
    simp [handledEvents_append, handledEvents]
  · intro w produced hw
    refine ⟨?_, by rw [h1]; simp [hq], by rw [h1], by rw [h1]⟩
    exact StepEvents_still_covered c
      { (StepEvents c s true).1 with
        world := w, eventQueue := (StepEvents c s true).1.eventQueue ++ produced } e
      (rest ++ produced) (by rw [h1]; simp [hq]) (by rw [h1]) hw

/-- Scenario A, three queued events of which the second shows a dialog when
notified: the hypotheses hold where the drain reaches the second event, the
first call stops there, a call made while the dialog is still up returns at
once with nothing changed, and the call made once the dialog is dismissed
checks and pops the second event without a second notification and then
notifies and retires the third. -/
theorem interrupted_notification_resumes_witness :
    (scenarioASecond.eventQueue = [demoEvent 16 5 3 6, demoEvent 128 5 3 6]
        ∧ scenarioASecond.handledFront = false
        ∧ demo.isTop (demo.handleEvent scenarioASecond.world (demoEvent 16 5 3 6)) = false
        ∧ demo.isTop scenarioADismissed = true)
      ∧ StepEvents demo scenarioA true = StepEvents demo scenarioASecond true
      ∧ (StepEvents demo scenarioASecond true
          = ({ scenarioASecond with
                world := demo.handleEvent scenarioASecond.world (demoEvent 16 5 3 6)
                handledFront := true
                log := scenarioASecond.log ++ [Call.handleEvent (demoEvent 16 5 3 6)] }, false))
      ∧ (StepEvents demo
            { (StepEvents demo scenarioASecond true).1 with
              world := scenarioADismissed
              eventQueue := (StepEvents demo scenarioASecond true).1.eventQueue ++ [] } true
          = StepEvents demo
              (popFront (secondaryChecks demo
                { (StepEvents demo scenarioASecond true).1 with
                  world := scenarioADismissed
                  eventQueue := (StepEvents demo scenarioASecond true).1.eventQueue ++ [] }
                (demoEvent 16 5 3 6)).1)
              (secondaryChecks demo
                { (StepEvents demo scenarioASecond true).1 with
                  world := scenarioADismissed
                  eventQueue := (StepEvents demo scenarioASecond true).1.eventQueue ++ [] }
                (demoEvent 16 5 3 6)).2
        ∧ handledEvents (secondaryChecks demo
            { (StepEvents demo scenarioASecond true).1 with
              world := scenarioADismissed
              eventQueue := (StepEvents demo scenarioASecond true).1.eventQueue ++ [] }
            (demoEvent 16 5 3 6)).1.log
            = handledEvents scenarioASecond.log ++ [demoEvent 16 5 3 6]
        ∧ (popFront (secondaryChecks demo
            { (StepEvents demo scenarioASecond true).1 with
              world := scenarioADismissed
              eventQueue := (StepEvents demo scenarioASecond true).1.eventQueue ++ [] }
            (demoEvent 16 5 3 6)).1).eventQueue = [demoEvent 128 5 3 6] ++ []
        ∧ (popFront (secondaryChecks demo
            { (StepEvents demo scenarioASecond true).1 with
              world := scenarioADismissed
              eventQueue := (StepEvents demo scenarioASecond true).1.eventQueue ++ [] }
            (demoEvent 16 5 3 6)).1).handledFront = false)
      ∧ (StepEvents demo
            { (StepEvents demo scenarioASecond true).1 with
              world := (StepEvents demo scenarioASecond true).1.world
              eventQueue := (StepEvents demo scenarioASecond true).1.eventQueue ++ [] } true
          = ({ (StepEvents demo scenarioASecond true).1 with
                world := (StepEvents demo scenarioASecond true).1.world
                eventQueue := (StepEvents demo scenarioASecond true).1.eventQueue ++ [] },
              false)
        ∧ (StepEvents demo scenarioASecond true).1.eventQueue ++ []
            = demoEvent 16 5 3 6 :: ([demoEvent 128 5 3 6] ++ [])
        ∧ (StepEvents demo scenarioASecond true).1.handledFront = true
        ∧ (StepEvents demo scenarioASecond true).1.log
            = scenarioASecond.log ++ [Call.handleEvent (demoEvent 16 5 3 6)])
      ∧ (StepEvents demo
            { (StepEvents demo scenarioA true).1 with world := scenarioADismissed } true).1.log
          = [Call.handleEvent (demoEvent 8 5 3 6), Call.handleEvent (demoEvent 16 5 3 6),
              Call.handleEvent (demoEvent 128 5 3 6)]
      ∧ (StepEvents demo
            { (StepEvents demo scenarioA true).1 with world := scenarioADismissed }
            true).1.eventQueue = [] :=
  ⟨by decide, rfl,
    (interrupted_notification_resumes demo scenarioASecond (demoEvent 16 5 3 6)
      [demoEvent 128 5 3 6] rfl rfl rfl).1,
    (interrupted_notification_resumes demo scenarioASecond (demoEvent 16 5 3 6)
      [demoEvent 128 5 3 6] rfl rfl rfl).2.1 scenarioADismissed [] rfl,
    (interrupted_notification_resumes demo scenarioASecond (demoEvent 16 5 3 6)
      [demoEvent 128 5 3 6] rfl rfl rfl).2.2
      (StepEvents demo scenarioASecond true).1.world [] rfl,
    by decide, by decide⟩

/-- C5 (as stated, refuted). A BOARD event by the player's flagship on a ship
for which `player.BoardingMission` has a mission without space, the ship having
been destroyed before the event is drained: the guard of line 874 skips the
whole boarding block, and the event is retired with no call of
`HandleBlockedMissions`. -/
theorem destroyed_target_counterexample :
    boardEvent.type = BOARD
      ∧ demo.isPlayer boardEvent.actorGovernment = true
      ∧ (demo.flagship blockedDestroyedWorld).map Flagship.id = some boardEvent.actor
      ∧ (demo.boardingMission blockedDestroyedWorld boardEvent.target).1 = some 9
      ∧ demo.hasSpace blockedDestroyedWorld 9 demoFlagship = false
      ∧ demo.isDestroyed blockedDestroyedWorld boardEvent.target = true
      ∧ (StepEvents demo (demoState blockedDestroyedWorld [boardEvent]) true).1.eventQueue = []
      ∧ (StepEvents demo (demoState blockedDestroyedWorld [boardEvent]) true).1.log
          = [Call.handleEvent boardEvent] := by
  decide

/-- C5 (amended). A BOARD or ASSIST event by the player's flagship whose target
has a boarding mission without space on the flagship, in the state `s` in which
its secondary checks start. If the target is not destroyed, the checks call
`player.BoardingMission` and then `player.HandleBlockedMissions`, with
`Mission::BOARDING` when the BOARD bit is set and `Mission::ASSISTING`
otherwise; every later call of the checks is a push or a fine query, so the
handler is called exactly once and the mission's OFFER stage is not invoked.
If the target is destroyed, the boarding block is skipped: the checks are the
scan block alone and make no call but a fine query and the push of a Dialog, so
neither the mission lookup nor `HandleBlockedMissions` is called. Either way
the call of `StepEvents` that reaches the checks pops the event and goes on with
the rest of the queue. -/
theorem blocked_mission_is_reported (c : Collaborators W) (s : State W) (e : ShipEvent)
    (f : Flagship) (m : MissionId)
    (hf : c.flagship s.world = some f) (hb : e.type &&& (BOARD ||| ASSIST) ≠ 0)
    (hp : c.isPlayer e.actorGovernment = true) (ha : e.actor = f.id)
    (hm : (c.boardingMission s.world e.target).1 = some m)
    (hs : c.hasSpace (c.boardingMission s.world e.target).2 m f = false) :
    (c.isDestroyed s.world e.target = false →
      ∃ laterCalls,
        (secondaryChecks c s e).1.log
            = s.log ++ [Call.boardingMission e.target,
                Call.handleBlockedMissions (if e.type &&& BOARD ≠ 0 then MissionLocation.BOARDING
                  else MissionLocation.ASSISTING)]
              ++ laterCalls
          ∧ ∀ k ∈ laterCalls, k = Call.fine e ∨ ∃ x, k = Call.push x)
      ∧ (c.isDestroyed s.world e.target = true →
          secondaryChecks c s e = handleScan c s e true
            ∧ ∃ laterCalls,
                (secondaryChecks c s e).1.log = s.log ++ laterCalls
                  ∧ ∀ k ∈ laterCalls,
                      k = Call.fine e ∨ ∃ t, k = Call.push (Surface.Dialog t))
      ∧ ∀ (s0 : State W) (rest : List ShipEvent),
          s0.eventQueue = e :: rest → notifyFront c s0 e = s → c.isTop s.world = true →
            StepEvents c s0 true
                = StepEvents c (popFront (secondaryChecks c s e).1) (secondaryChecks c s e).2
              ∧ (popFront (secondaryChecks c s e).1).eventQueue = rest := by
  refine ⟨?_, ?_, ?_⟩
  rotate_left
  · intro hd
    refine ⟨secondaryChecks_destroyed c s e hd, ?_⟩
    rw [secondaryChecks_destroyed c s e hd]
    exact handleScan_log c s e true
  · intro s0 rest hq hs0 ht
    subst hs0
    exact StepEvents_round c s0 e rest hq ht
  intro hd
  have hg := boardingGuard_of c s.world e f hf hb hp hd ha
  obtain ⟨ks, h1, h2⟩ := handleScan_log c (handleBoarding c s e true).1 e
    (handleBoarding c s e true).2
  simp only [secondaryChecks]
  rw [h1, handleBoarding_log c s e true f hg, boardingMissionStage_blocked c s e f m hm hs]
  simp only []
  generalize (if e.type &&& BOARD ≠ 0 then MissionLocation.BOARDING
    else MissionLocation.ASSISTING) = location
  split_ifs
  · refine ⟨Call.push (Surface.BoardingPanel e.target) :: ks, by simp, ?_⟩
    intro k hk
    rcases List.mem_cons.1 hk with h | h
    · exact Or.inr ⟨_, h⟩
    · rcases h2 k h with h | ⟨t, h⟩
      · exact Or.inl h
      · exact Or.inr ⟨_, h⟩
  · refine ⟨ks, by simp, ?_⟩
    intro k hk
    rcases h2 k hk with h | ⟨t, h⟩
    · exact Or.inl h
    · exact Or.inr ⟨_, h⟩

/-- The same event while the boarded ship still exists: the blocked-mission
handler is called, with `Mission::BOARDING`, and the offer is not. And once the
boarded ship has been destroyed: the checks are the scan block alone, nothing
is called after the notification, and the event is popped. -/
theorem blocked_mission_is_reported_witness :
    (demo.flagship (demoState blockedWorld [boardEvent]).world = some demoFlagship
        ∧ boardEvent.type &&& (BOARD ||| ASSIST) ≠ 0
        ∧ demo.isPlayer boardEvent.actorGovernment = true
        ∧ boardEvent.actor = demoFlagship.id
        ∧ demo.isDestroyed (demoState blockedWorld [boardEvent]).world boardEvent.target = false
        ∧ (demo.boardingMission (demoState blockedWorld [boardEvent]).world
            boardEvent.target).1 = some 9
        ∧ demo.hasSpace (demo.boardingMission (demoState blockedWorld [boardEvent]).world
            boardEvent.target).2 9 demoFlagship = false)
      ∧ (∃ laterCalls,
          (secondaryChecks demo (demoState blockedWorld [boardEvent]) boardEvent).1.log
            = (demoState blockedWorld [boardEvent]).log
              ++ [Call.boardingMission boardEvent.target,
                  Call.handleBlockedMissions
                    (if boardEvent.type &&& BOARD ≠ 0 then MissionLocation.BOARDING
                      else MissionLocation.ASSISTING)]
              ++ laterCalls
          ∧ ∀ k ∈ laterCalls, k = Call.fine boardEvent ∨ ∃ x, k = Call.push x)
      ∧ (StepEvents demo (demoState blockedWorld [boardEvent]) true).1.log
          = [Call.handleEvent boardEvent, Call.boardingMission 6,
              Call.handleBlockedMissions MissionLocation.BOARDING]
      ∧ (demo.flagship
            (notifyFront demo (demoState blockedDestroyedWorld [boardEvent]) boardEvent).world
            = some demoFlagship
        ∧ demo.isDestroyed
            (notifyFront demo (demoState blockedDestroyedWorld [boardEvent]) boardEvent).world
            boardEvent.target = true
        ∧ (demo.boardingMission
            (notifyFront demo (demoState blockedDestroyedWorld [boardEvent]) boardEvent).world
            boardEvent.target).1 = some 9
        ∧ demo.hasSpace (demo.boardingMission
            (notifyFront demo (demoState blockedDestroyedWorld [boardEvent]) boardEvent).world
            boardEvent.target).2 9 demoFlagship = false
        ∧ demo.isTop
            (notifyFront demo (demoState blockedDestroyedWorld [boardEvent]) boardEvent).world
            = true)
      ∧ (secondaryChecks demo
            (notifyFront demo (demoState blockedDestroyedWorld [boardEvent]) boardEvent)
            boardEvent
          = handleScan demo
              (notifyFront demo (demoState blockedDestroyedWorld [boardEvent]) boardEvent)
              boardEvent true
        ∧ ∃ laterCalls,
            (secondaryChecks demo
              (notifyFront demo (demoState blockedDestroyedWorld [boardEvent]) boardEvent)
              boardEvent).1.log
              = (notifyFront demo (demoState blockedDestroyedWorld [boardEvent]) boardEvent).log
                ++ laterCalls
            ∧ ∀ k ∈ laterCalls,
                k = Call.fine boardEvent ∨ ∃ t, k = Call.push (Surface.Dialog t))
      ∧ (StepEvents demo (demoState blockedDestroyedWorld [boardEvent]) true
          = StepEvents demo
              (popFront (secondaryChecks demo
                (notifyFront demo (demoState blockedDestroyedWorld [boardEvent]) boardEvent)
                boardEvent).1)
              (secondaryChecks demo
                (notifyFront demo (demoState blockedDestroyedWorld [boardEvent]) boardEvent)
                boardEvent).2
        ∧ (popFront (secondaryChecks demo
            (notifyFront demo (demoState blockedDestroyedWorld [boardEvent]) boardEvent)
            boardEvent).1).eventQueue = [])
      ∧ (StepEvents demo (demoState blockedDestroyedWorld [boardEvent]) true).1.log
          = [Call.handleEvent boardEvent]
      ∧ (StepEvents demo (demoState blockedDestroyedWorld [boardEvent]) true).1.eventQueue
          = [] :=
  ⟨by decide,
    (blocked_mission_is_reported demo (demoState blockedWorld [boardEvent]) boardEvent
      demoFlagship 9 rfl (by decide) rfl rfl rfl rfl).1 rfl,
    by decide,
    by decide,
    (blocked_mission_is_reported demo
      (notifyFront demo (demoState blockedDestroyedWorld [boardEvent]) boardEvent) boardEvent
      demoFlagship 9 rfl (by decide) rfl rfl rfl rfl).2.1 rfl,
    (blocked_mission_is_reported demo
      (notifyFront demo (demoState blockedDestroyedWorld [boardEvent]) boardEvent) boardEvent
      demoFlagship 9 rfl (by decide) rfl rfl rfl rfl).2.2
      (demoState blockedDestroyedWorld [boardEvent]) [] rfl rfl rfl,
    by decide, by decide⟩

/-- C6 (code at the failing input). The controller is covered by another panel
when the frame begins (`GetUI()->IsTop(this)` is false), a hail was requested
and cannot open (nothing is targeted). Line 92 sets `isActive = !ShowHailPanel()`
whatever it was, so `isActive` goes from false to true: the engine is stepped
as active, `engine.Go()` is called and `canClick` is set; with the player on a
planet the landing surface is pushed in that frame. -/
theorem hail_request_reactivates_covered_controller :
    demo.isTopDrawn (demo.engineWait (hailRequested coveredWorld).world) = false
      ∧ ShowHailPanel (hailView demo (demo.engineWait (hailRequested coveredWorld).world))
          = ([Call.messagesAdd "Unable to send hail: no target selected."], false)
      ∧ (stepShow demo (hailRequested coveredWorld)).2 = true
      ∧ (Step demo (hailRequested coveredWorld)).log
          = [Call.engineWait, Call.messagesAdd "Unable to send hail: no target selected.",
              Call.engineStep true, Call.engineEvents [], Call.engineGo]
      ∧ (Step demo (hailRequested coveredWorld)).canClick = true
      ∧ demo.isTopDrawn (demo.engineWait (hailRequested coveredLandedWorld).world) = false
      ∧ (Step demo (hailRequested coveredLandedWorld)).log
          = [Call.engineWait, Call.messagesAdd "Unable to send hail: no target selected.",
              Call.push Surface.PlanetPanel, Call.land, Call.save, Call.engineStep false,
              Call.engineEvents []] := by
  decide

/-- C7. In every `Step` call the advance-or-suspend decision is taken once,
from the value of `isActive` after the drain: `engine.Go()` is called exactly
once more than before when that value is true and not at all when it is false,
`canClick` becomes that value, and `canDrag` becomes false when it is false and
keeps the value it had on entry when it is true. -/
theorem advance_or_suspend_once (c : Collaborators W) (s : State W) :
    goCount (Step c s).log = goCount s.log + (if (stepThroughDrain c s).2 then 1 else 0)
      ∧ (Step c s).canClick = (stepThroughDrain c s).2
      ∧ (Step c s).canDrag = (if (stepThroughDrain c s).2 then s.canDrag else false) := by
  obtain ⟨_, _, q3, _, _, _, q7⟩ := stepBeforeEngine_quiet c s
  obtain ⟨_, _, e3, _, _, _, e7⟩ := stepEngine_fields c (stepBeforeEngine c s).1
    (stepBeforeEngine c s).2
  obtain ⟨_, d2, _, _, d5⟩ := drainLoop_suffix c _ (stepEngine c (stepBeforeEngine c s).1
    (stepBeforeEngine c s).2) (stepBeforeEngine c s).2 rfl
  have hg : goCount (stepThroughDrain c s).1.log = goCount s.log := by
    simp only [stepThroughDrain, StepEvents]
    rw [d5, e7, q7]
  have hd : (stepThroughDrain c s).1.canDrag = s.canDrag := by
    simp only [stepThroughDrain, StepEvents]
    rw [d2, e3, q3]
  obtain ⟨_, _, f3, f4, _, _, f7⟩ := stepFinish_fields c (stepThroughDrain c s).1
    (stepThroughDrain c s).2
  simp only [Step]
  rw [f7, f3, f4, hg, hd]
  simp

/-- C8 (as stated, refuted). With no flagship, with a destroyed flagship and
with a flagship in its landing or launch animation, `ShowHailPanel` returns
false without adding any message. -/
theorem silent_hail_refusal_counterexample :
    ShowHailPanel (demoView none false) = ([], false)
      ∧ ShowHailPanel (demoView (some { demoFlagship with isDestroyed := true }) false)
          = ([], false)
      ∧ ShowHailPanel (demoView (some { demoFlagship with zoom := 0 }) false) = ([], false) := by
  decide

/-- C8 (amended). Whenever `ShowHailPanel` returns false it pushes no surface.
When there is no flagship, or the flagship is destroyed or in its landing or
launch animation (`Zoom() < 1`), it returns at once and makes no call at all,
so no message is added; in every other state in which it returns false its
only call is one `Messages::Add`. -/
theorem failed_hail_pushes_nothing (v : HailView) (h : (ShowHailPanel v).2 = false) :
    (∀ x, Call.push x ∉ (ShowHailPanel v).1)
      ∧ ((v.flagship = none
            ∨ ∃ f, v.flagship = some f ∧ (f.isDestroyed = true ∨ f.zoom < 1)) →
          (ShowHailPanel v).1 = [])
      ∧ ((∃ f, v.flagship = some f ∧ f.isDestroyed = false ∧ ¬ f.zoom < 1) →
          ∃ text, (ShowHailPanel v).1 = [Call.messagesAdd text]) := by
  rcases ShowHailPanel_cases v with
    ⟨h1, h2⟩ | ⟨⟨text, h1⟩, f, h2, h3, h4⟩ | ⟨⟨x, h1⟩, _⟩
  · refine ⟨by simp [h1], fun _ => by simp [h1], ?_⟩
    rintro ⟨f, g1, g2, g3⟩
    rcases h2 with h2 | ⟨f', g1', g2'⟩
    · simp [h2] at g1
    · rw [g1] at g1'
      cases g1'
      rcases g2' with g | g
      · simp [g] at g2
      · exact absurd g g3
  · refine ⟨by simp [h1], ?_, fun _ => ⟨text, by simp [h1]⟩⟩
    rintro (g | ⟨f', g1, g2⟩)
    · simp [g] at h2
    · rw [h2] at g1
      cases g1
      rcases g2 with g | g
      · simp [g] at h3
      · exact absurd g h4
  · rw [h1] at h
    simp at h

/-- A flagship with nothing targeted: the hail fails with exactly one message
and no surface. -/
theorem failed_hail_pushes_nothing_witness :
    (ShowHailPanel (demoView (some demoFlagship) false)).2 = false
      ∧ ((∀ x, Call.push x ∉ (ShowHailPanel (demoView (some demoFlagship) false)).1)
        ∧ (((demoView (some demoFlagship) false).flagship = none
              ∨ ∃ f, (demoView (some demoFlagship) false).flagship = some f
                ∧ (f.isDestroyed = true ∨ f.zoom < 1)) →
            (ShowHailPanel (demoView (some demoFlagship) false)).1 = [])
        ∧ ((∃ f, (demoView (some demoFlagship) false).flagship = some f
              ∧ f.isDestroyed = false ∧ ¬ f.zoom < 1) →
            ∃ text, (ShowHailPanel (demoView (some demoFlagship) false)).1
              = [Call.messagesAdd text]))
      ∧ ShowHailPanel (demoView (some demoFlagship) false)
          = ([Call.messagesAdd "Unable to send hail: no target selected."], false) :=
  ⟨rfl, failed_hail_pushes_nothing (demoView (some demoFlagship) false) rfl, by decide⟩

/-- C9 (as stated, refuted). Every condition the claim lists holds, but the
flagship is entering hyperspace: the hail is refused with a message, no
HailPanel is pushed and false is returned, so `Step` leaves `isActive` true.
The same happens when the flagship is fully cloaked or the target is in its
landing or launch animation. -/
theorem ship_hail_refused_counterexample :
    ShowHailPanel (demoView (some { shipTargeted with isEnteringHyperspace := true }) false)
        = ([Call.messagesAdd "Unable to send hail: your flagship is entering hyperspace."],
            false)
      ∧ ShowHailPanel (demoView (some { shipTargeted with cloaking := 1 }) false)
          = ([Call.messagesAdd "Unable to send hail: your flagship is cloaked."], false)
      ∧ ShowHailPanel
          (demoView (some { demoFlagship with
            targetShip := some { hailableShip with zoom := 0 } }) false)
          = ([Call.messagesAdd "Unable to hail target ship."], false)
      ∧ (stepShow demo (hailRequested { demoWorld with
          flagship := some { shipTargeted with isEnteringHyperspace := true } })).2 = true
      ∧ (Step demo (hailRequested { demoWorld with
          flagship := some { shipTargeted with isEnteringHyperspace := true } })).log
          = [Call.engineWait,
              Call.messagesAdd "Unable to send hail: your flagship is entering hyperspace.",
              Call.engineStep true, Call.engineEvents [], Call.engineGo] := by
  decide

/-- C9 (amended). If the flagship exists, is not destroyed, is not in its
landing or launch animation, is not entering hyperspace and is not fully
cloaked, the shift key is not held, and the flagship's target ship is in the
player's system, not destroyed, not fully cloaked, not entering hyperspace and
not in its own landing or launch animation (`Zoom() >= 1`), then
`ShowHailPanel` pushes one ship HailPanel for that target, makes no other call
and returns true. Hence a `Step` whose request is HAIL (and neither MAP nor
INFO), reading that state after `engine.Wait()`, pushes that panel, has
`isActive` false after the requested panels and after the drain, leaves
`canClick` false and does not call `engine.Go()`. -/
theorem ship_hail_opens (v : HailView) (f : Flagship) (t : TargetShip)
    (hf : v.flagship = some f) (hd : f.isDestroyed = false) (hz : ¬ f.zoom < 1)
    (hs : v.shiftHeld = false) (ht : f.targetShip = some t)
    (hsys : t.system = v.playerSystem) (htd : t.isDestroyed = false)
    (htc : t.cloaking ≠ 1) (hth : t.isEnteringHyperspace = false)
    (hh : f.isEnteringHyperspace = false) (hc : f.cloaking ≠ 1) (htz : ¬ t.zoom < 1) :
    ShowHailPanel v = ([Call.push (Surface.HailPanelShip t.id)], true)
      ∧ ∀ (W : Type) (c : Collaborators W) (s : State W),
          hailView c (c.engineWait s.world) = v → s.showCommand = ⟨false, false, true⟩ →
            (stepShow c s).1.log
                = s.log ++ [Call.engineWait, Call.push (Surface.HailPanelShip t.id)]
              ∧ (stepShow c s).2 = false
              ∧ (stepThroughDrain c s).2 = false
              ∧ (Step c s).canClick = false
              ∧ goCount (Step c s).log = goCount s.log := by
  have h1 : ShowHailPanel v = ([Call.push (Surface.HailPanelShip t.id)], true) := by
    simp [ShowHailPanel, hf, hd, hz, hh, hc, hailTarget, hs, ht, htz, htd, hsys, htc, hth]
  refine ⟨h1, ?_⟩
  intro W c s hv hshow
  have h2 : (stepShow c s).2 = false := by
    simp [stepShow, State.call, hshow, hv, h1]
  have h3 : (stepShow c s).1.log
      = s.log ++ [Call.engineWait, Call.push (Surface.HailPanelShip t.id)] := by
    simp [stepShow, State.call, hshow, hv, h1, State.perform, State.push]
  obtain ⟨i1, i2, _, i4⟩ := Step_inactive c s h2
  refine ⟨h3, h2, i1, i2, ?_⟩
  rw [i4, goCount_append, (stepShow_quiet c s).2.2.2.2.2.2]
  simp [goCount]

/-- A flagship in open space whose target ship is in the system: the ship
HailPanel is pushed and the frame is inactive. -/
theorem ship_hail_opens_witness :
    ((demoView (some shipTargeted) false).flagship = some shipTargeted
        ∧ shipTargeted.isDestroyed = false
        ∧ ¬ shipTargeted.zoom < 1
        ∧ (demoView (some shipTargeted) false).shiftHeld = false
        ∧ shipTargeted.targetShip = some hailableShip
        ∧ hailableShip.system = (demoView (some shipTargeted) false).playerSystem
        ∧ hailableShip.isDestroyed = false
        ∧ hailableShip.cloaking ≠ 1
        ∧ hailableShip.isEnteringHyperspace = false
        ∧ shipTargeted.isEnteringHyperspace = false
        ∧ shipTargeted.cloaking ≠ 1
        ∧ ¬ hailableShip.zoom < 1)
      ∧ ShowHailPanel (demoView (some shipTargeted) false)
          = ([Call.push (Surface.HailPanelShip hailableShip.id)], true)
      ∧ ((stepShow demo (hailRequested { demoWorld with flagship := some shipTargeted })).1.log
            = (hailRequested { demoWorld with flagship := some shipTargeted }).log
              ++ [Call.engineWait, Call.push (Surface.HailPanelShip hailableShip.id)]
        ∧ (stepShow demo (hailRequested { demoWorld with flagship := some shipTargeted })).2
            = false
        ∧ (stepThroughDrain demo
            (hailRequested { demoWorld with flagship := some shipTargeted })).2 = false
        ∧ (Step demo (hailRequested { demoWorld with flagship := some shipTargeted })).canClick
            = false
        ∧ goCount (Step demo (hailRequested { demoWorld with flagship := some shipTargeted })).log
            = goCount (hailRequested { demoWorld with flagship := some shipTargeted }).log) :=
  ⟨by decide,
    (ship_hail_opens (demoView (some shipTargeted) false) shipTargeted hailableShip rfl rfl
      (by decide) rfl rfl rfl rfl (by decide) rfl rfl (by decide) (by decide)).1,
    (ship_hail_opens (demoView (some shipTargeted) false) shipTargeted hailableShip rfl rfl
      (by decide) rfl rfl rfl rfl (by decide) rfl rfl (by decide) (by decide)).2 DemoWorld demo
      (hailRequested { demoWorld with flagship := some shipTargeted }) rfl rfl⟩

/-- C10. With the shift key held and a flagship that has a stellar target,
`ShowHailPanel` makes the same calls and returns the same value as in the state
where the flagship has no target ship at all, and it pushes no ship HailPanel;
with the shift key held and no stellar target, it behaves as if the key were
not held, so the target ship is still used. -/
theorem shift_prefers_stellar_target (v : HailView) (f : Flagship)
    (hf : v.flagship = some f) (hs : v.shiftHeld = true) :
    (f.targetStellar ≠ none →
        ShowHailPanel v = ShowHailPanel { v with flagship := some { f with targetShip := none } }
          ∧ ∀ target, Call.push (Surface.HailPanelShip target) ∉ (ShowHailPanel v).1)
      ∧ (f.targetStellar = none →
          ShowHailPanel v = ShowHailPanel { v with shiftHeld := false }) := by
  constructor
  · intro hst
    obtain ⟨st, hst'⟩ : ∃ st, f.targetStellar = some st := by
      cases h : f.targetStellar with
      | none => exact absurd h hst
      | some st => exact ⟨st, rfl⟩
    have key : ShowHailPanel v
        = ShowHailPanel { v with flagship := some { f with targetShip := none } } := by
      simp only [ShowHailPanel, hf, hailTarget, hs, hst']
      simp
    refine ⟨key, ?_⟩
    intro target
    rw [key]
    simp only [ShowHailPanel, hailTarget, hs, hst']
    split_ifs <;> simp
    all_goals (cases st.planet <;> simp)
    all_goals (split_ifs <;> simp)
  · intro hst
    simp only [ShowHailPanel, hf, hailTarget, hs, hst]
    simp

/-- Shift held: with a ship and a planet targeted the planet is hailed, exactly
as if no ship were targeted; with only a ship targeted the ship is hailed,
exactly as without shift. -/
theorem shift_prefers_stellar_target_witness :
    ((demoView (some bothTargeted) true).flagship = some bothTargeted
        ∧ (demoView (some bothTargeted) true).shiftHeld = true)
      ∧ (ShowHailPanel (demoView (some bothTargeted) true)
          = ShowHailPanel
              { demoView (some bothTargeted) true with
                flagship := some { bothTargeted with targetShip := none } }
        ∧ ∀ target, Call.push (Surface.HailPanelShip target)
            ∉ (ShowHailPanel (demoView (some bothTargeted) true)).1)
      ∧ ShowHailPanel (demoView (some bothTargeted) true)
          = ([Call.push (Surface.HailPanelStellar inhabitedStellar.id)], true)
      ∧ ShowHailPanel (demoView (some shipTargeted) true)
          = ShowHailPanel { demoView (some shipTargeted) true with shiftHeld := false }
      ∧ ShowHailPanel (demoView (some shipTargeted) true)
          = ([Call.push (Surface.HailPanelShip hailableShip.id)], true) :=
  ⟨⟨rfl, rfl⟩,
    (shift_prefers_stellar_target (demoView (some bothTargeted) true) bothTargeted rfl rfl).1
      (by decide),
    by decide,
    (shift_prefers_stellar_target (demoView (some shipTargeted) true) shipTargeted rfl rfl).2 rfl,
    by decide⟩

/-- C11 (as stated, refuted). A fresh controller and 3600 consecutive frames in
which the predicate holds and `isActive` is true: `"lost 1"` is passed to
`DoHelp` on the first frame, not the 3600th, and on the 3600th frame `"lost 2"`
is passed, so another lost-stage message is fired within those frames. -/
theorem lost_one_fires_early_counterexample :
    (lostFrame.isActive = true ∧ lostInSpace demo lostFrame.world lostFrame.flagship)
      ∧ (demoState demoWorld []).lostness = 0
      ∧ (demoState demoWorld []).lostCount = 0
      ∧ helpNames (runLost demo (demoState demoWorld []) (List.replicate 1 lostFrame)).log
          = ["lost 1"]
      ∧ helpNames (runLost demo (demoState demoWorld []) (List.replicate 3600 lostFrame)).log
          = ["lost 1", "lost 2"] := by
  refine ⟨by decide, rfl, rfl, by decide, ?_⟩
  have h := lost_names_after demo (demoState demoWorld []) (List.replicate 3600 lostFrame)
    rfl rfl (by rw [List.length_replicate]; decide)
    (fun f hf => by rw [List.eq_of_mem_replicate hf]; decide)
  rw [List.length_replicate] at h
  exact h.trans (by decide)

/-- C11 (amended). Start from a fresh controller (`lostness = 0`,
`lostCount = 0`) and run lines 137-150 on 3600 consecutive frames, in each of
which `isActive` is true and the lost-in-space predicate holds. After the first
`n` of those frames the lost messages passed to `DoHelp` are: none for `n = 0`,
`"lost 1"` alone for `1 <= n < 3600`, and `"lost 1"` then `"lost 2"` for
`n = 3600`. So the first-stage message is passed exactly once, on the first
frame; nothing is passed on frames 2 to 3599; the second-stage message is
passed exactly once, on the 3600th frame. -/
theorem lost_stage_one_fires_on_first_frame (c : Collaborators W) (s : State W)
    (frames : List (LostFrame W)) (h0 : s.lostness = 0) (h1 : s.lostCount = 0)
    (hlen : frames.length = 3600)
    (hall : ∀ f ∈ frames, f.isActive = true ∧ lostInSpace c f.world f.flagship) :
    ∀ n, n ≤ 3600 →
      helpNames (runLost c { s with log := [] } (frames.take n)).log
        = if n = 0 then [] else if n < 3600 then ["lost 1"] else ["lost 1", "lost 2"] := by
  intro n hn
  have hlen' : (frames.take n).length = n := by
    rw [List.length_take, hlen]; omega
  rw [lost_names_after c s (frames.take n) h0 h1 (by omega)
    (fun f hf => hall f (List.mem_of_mem_take hf)), hlen']
  by_cases hz : n = 0
  · simp [hz]
  · by_cases hlt : n < 3600
    · have : n / 3600 = 0 := Nat.div_eq_of_lt hlt
      simp only [hz, hlt, this, if_false, if_true]
      decide
    · have : n = 3600 := by omega
      subst this
      decide

/-- The hypotheses at 3600 copies of `lostFrame`, and what has been passed to
`DoHelp` after 1, 3599 and 3600 of them. -/
theorem lost_stage_one_fires_on_first_frame_witness :
    ((demoState demoWorld []).lostness = 0
        ∧ (demoState demoWorld []).lostCount = 0
        ∧ (List.replicate 3600 lostFrame).length = 3600
        ∧ ∀ f ∈ List.replicate 3600 lostFrame,
            f.isActive = true ∧ lostInSpace demo f.world f.flagship)
      ∧ helpNames (runLost demo { demoState demoWorld [] with log := [] }
          ((List.replicate 3600 lostFrame).take 1)).log
          = (if 1 = 0 then [] else if 1 < 3600 then ["lost 1"] else ["lost 1", "lost 2"])
      ∧ helpNames (runLost demo { demoState demoWorld [] with log := [] }
          ((List.replicate 3600 lostFrame).take 3599)).log
          = (if 3599 = 0 then [] else if 3599 < 3600 then ["lost 1"] else ["lost 1", "lost 2"])
      ∧ helpNames (runLost demo { demoState demoWorld [] with log := [] }
          ((List.replicate 3600 lostFrame).take 3600)).log
          = (if 3600 = 0 then [] else if 3600 < 3600 then ["lost 1"]
              else ["lost 1", "lost 2"]) :=
  ⟨⟨rfl, rfl, List.length_replicate _ _,
      fun f hf => by rw [List.eq_of_mem_replicate hf]; decide⟩,
    lost_stage_one_fires_on_first_frame demo (demoState demoWorld [])
      (List.replicate 3600 lostFrame) rfl rfl (List.length_replicate _ _)
      (fun f hf => by rw [List.eq_of_mem_replicate hf]; decide) 1 (by decide),
    lost_stage_one_fires_on_first_frame demo (demoState demoWorld [])
      (List.replicate 3600 lostFrame) rfl rfl (List.length_replicate _ _)
      (fun f hf => by rw [List.eq_of_mem_replicate hf]; decide) 3599 (by decide),
    lost_stage_one_fires_on_first_frame demo (demoState demoWorld [])
      (List.replicate 3600 lostFrame) rfl rfl (List.length_replicate _ _)
      (fun f hf => by rw [List.eq_of_mem_replicate hf]; decide) 3600 (by decide)⟩

/-- C13 (code at the failing input). An ASSIST event by the player's flagship
that also carries the SCAN_CARGO bit, on a ship whose boarding mission has space
and shows a conversation when offered: after the offer the controller is no
longer top and `isActive` is false, the BoardingPanel is rightly withheld, and
yet the scan block of lines 904-910, which does not test `isActive`, pushes the
scan Dialog in the same call. -/
theorem scan_dialog_pushed_while_inactive :
    assistScanEvent.type &&& (BOARD ||| ASSIST) ≠ 0
      ∧ assistScanEvent.type &&& (SCAN_CARGO ||| SCAN_OUTFITS) ≠ 0
      ∧ (handleBoarding demo (notifyFront demo (demoState shownOfferWorld [assistScanEvent])
          assistScanEvent) assistScanEvent true).2 = false
      ∧ demo.isTop (handleBoarding demo
          (notifyFront demo (demoState shownOfferWorld [assistScanEvent]) assistScanEvent)
          assistScanEvent true).1.world = false
      ∧ (StepEvents demo (demoState shownOfferWorld [assistScanEvent]) true).1.log
          = [Call.handleEvent assistScanEvent, Call.boardingMission 6, Call.missionOffer 9 6,
              Call.push (Surface.Dialog "This ship is not carrying any cargo.\n")]
      ∧ (StepEvents demo (demoState shownOfferWorld [assistScanEvent]) true).1.eventQueue
          = [] := by
  decide

/-- C14 (code at the failing input). A fresh controller (`lostness = 0`,
`lostCount = 0`) and frames in all of which `isActive` is true and the
lost-in-space predicate holds, so that lines 137-150 run in each. After
2147483647 of them `lostness = 2147483647` and `lostCount = 7`. On the next
frame `++lostness` overflows the `int` and wraps to -2147483648, the test of
line 142 fails and `lostCount` stays 7, while `min 7 (1 + lostness / 3600)` is
-596522: after that frame `lostCount` is not `min 7 (1 + lostness / 3600)`. -/
theorem lostness_overflow_breaks_stage_formula :
    (lostFrame.isActive = true ∧ lostInSpace demo lostFrame.world lostFrame.flagship)
      ∧ (demoState demoWorld []).lostness = 0
      ∧ (demoState demoWorld []).lostCount = 0
      ∧ (runLost demo (demoState demoWorld []) (List.replicate 2147483647 lostFrame)).lostness
          = 2147483647
      ∧ (runLost demo (demoState demoWorld []) (List.replicate 2147483647 lostFrame)).lostCount
          = 7
      ∧ (runLost demo (demoState demoWorld [])
          (List.replicate 2147483647 lostFrame ++ [lostFrame])).lostness = -2147483648
      ∧ (runLost demo (demoState demoWorld [])
          (List.replicate 2147483647 lostFrame ++ [lostFrame])).lostCount = 7
      ∧ (List.replicate 2147483647 lostFrame ++ [lostFrame]).length = 2147483648
      ∧ min 7 (1 + Int.tdiv (-2147483648) 3600) = -596522 := by
  obtain ⟨r1, r2, r3, r4⟩ := runLost_overflow demo (demoState demoWorld [])
    (List.replicate 2147483647 lostFrame) lostFrame rfl rfl rfl (List.length_replicate _ _)
    (fun g hg => by rw [List.eq_of_mem_replicate hg]; decide) (by decide)
  refine ⟨by decide, rfl, rfl, r1, r2, r3, r4, ?_, by decide⟩
  rw [List.length_append, List.length_replicate]
  rfl

/-- C15. The predicate "`handledFront = true` implies `eventQueue` is
non-empty" holds in every state with `handledFront = false`, and every
`StepEvents` call and every `Step` call entered in a state where it holds
returns in a state where it holds, so it holds after any run of frames from a
controller with `handledFront = false`. `StepEvents` terminates: its loop,
run round by round, returns within `eventQueue.length + 1` rounds, and what it
returns is `StepEvents`. On return either `isActive` is false or the queue is
empty with `handledFront = false`. Entered with `isActive = false`, it returns
the state it was given, log included: the queue and `handledFront` are
unchanged and no collaborator is called. -/
theorem handledFront_latch_invariant (c : Collaborators W) (s : State W) (isActive : Bool)
    (h : s.handledFront = true → s.eventQueue ≠ []) :
    (∀ s0 : State W, s0.handledFront = false → s0.handledFront = true → s0.eventQueue ≠ [])
      ∧ ((StepEvents c s isActive).1.handledFront = true →
          (StepEvents c s isActive).1.eventQueue ≠ [])
      ∧ ((Step c s).handledFront = true → (Step c s).eventQueue ≠ [])
      ∧ (∀ ins : List (Input W),
          (runSteps c { s with handledFront := false } ins).handledFront = true →
            (runSteps c { s with handledFront := false } ins).eventQueue ≠ [])
      ∧ drainWhile c (s.eventQueue.length + 1) s isActive = some (StepEvents c s isActive)
      ∧ ((StepEvents c s isActive).2 = false
          ∨ ((StepEvents c s isActive).1.eventQueue = []
            ∧ (StepEvents c s isActive).1.handledFront = false))
      ∧ StepEvents c s false = (s, false) := by
  obtain ⟨l1, l2⟩ := drainLoop_latch c s.eventQueue s isActive rfl h
  refine ⟨?_, l1, Step_latch c s h, ?_, ?_, l2, StepEvents_inactive c s⟩
  · intro s0 h0 h1
    rw [h0] at h1
    exact absurd h1 (by simp)
  · intro ins
    exact runSteps_latch c ins _ (by simp)
  · exact drainWhile_enough c s.eventQueue s isActive _ rfl (Nat.lt_succ_self _)

/-- Scenario A: the latch is clear on entry; the call returns inactive with the
latch set and two events still queued. -/
theorem handledFront_latch_invariant_witness :
    (scenarioA.handledFront = true → scenarioA.eventQueue ≠ [])
      ∧ ((∀ s0 : State DemoWorld,
            s0.handledFront = false → s0.handledFront = true → s0.eventQueue ≠ [])
        ∧ ((StepEvents demo scenarioA true).1.handledFront = true →
            (StepEvents demo scenarioA true).1.eventQueue ≠ [])
        ∧ ((Step demo scenarioA).handledFront = true → (Step demo scenarioA).eventQueue ≠ [])
        ∧ (∀ ins : List (Input DemoWorld),
            (runSteps demo { scenarioA with handledFront := false } ins).handledFront = true →
              (runSteps demo { scenarioA with handledFront := false } ins).eventQueue ≠ [])
        ∧ drainWhile demo (scenarioA.eventQueue.length + 1) scenarioA true
            = some (StepEvents demo scenarioA true)
        ∧ ((StepEvents demo scenarioA true).2 = false
            ∨ ((StepEvents demo scenarioA true).1.eventQueue = []
              ∧ (StepEvents demo scenarioA true).1.handledFront = false))
        ∧ StepEvents demo scenarioA false = (scenarioA, false))
      ∧ (StepEvents demo scenarioA true).1.handledFront = true
      ∧ (StepEvents demo scenarioA true).1.eventQueue.length = 2
      ∧ (StepEvents demo scenarioA true).2 = false :=
  ⟨by decide, handledFront_latch_invariant demo scenarioA true (by decide), by decide, by decide,
    by decide⟩

end MainPanel
